import Mathlib

/-!
Verification of the Nazara renderer's state-and-binding reconciliation engine
(`src/Nazara/Renderer/Renderer.cpp`), as a shallow embedding.

Matrices are kept abstract: the `Matrix4f` operations used by the renderer
(`Concatenate`, `ConcatenateAffine`, `GetInverse`) live outside this file's
source and are modelled as an abstract operation record `MatrixOps` over an
arbitrary carrier type `M`.
-/

set_option autoImplicit false

namespace NzRenderer

/-- The twelve matrix slots of the `MatrixType` enum. -/
inductive MatrixType where
  | InvProjection
  | InvView
  | InvViewProj
  | InvWorld
  | InvWorldView
  | InvWorldViewProj
  | Projection
  | View
  | ViewProj
  | World
  | WorldView
  | WorldViewProj
deriving DecidableEq, Repr

/-- `MatrixUnit` of Renderer.cpp: a matrix value, its `updated` flag and the
resolved shader uniform location (`-1` when absent). -/
structure MatrixUnit (M : Type) where
  matrix : M
  updated : Bool
  location : Int
deriving DecidableEq, Repr

/-- The `s_matrices` array: one `MatrixUnit` per `MatrixType`. -/
def MatrixState (M : Type) := MatrixType → MatrixUnit M

/-- Modelled from the spec: the external `Matrix4f` operations used by the
renderer.  `concat a b` is `a.Concatenate(b)` (the product `a · b`),
`concatAffine a b` is `a.ConcatenateAffine(b)`, and `inverse` is
`GetInverse`, returning `none` exactly when the matrix is singular (in which
case the destination of `GetInverse` is left untouched). -/
structure MatrixOps (M : Type) where
  concat : M → M → M
  concatAffine : M → M → M
  inverse : M → Option M

variable {M : Type}

/-- Replace the unit stored for slot `t`. -/
def setUnit (t : MatrixType) (u : MatrixUnit M) (s : MatrixState M) : MatrixState M :=
  fun t' => if t' = t then u else s t'

/-- `s_matrices[t].updated = false`. -/
def invalidate (t : MatrixType) (s : MatrixState M) : MatrixState M :=
  setUnit t { s t with updated := false } s

/-- The slots whose `updated` flag `Renderer::SetMatrix(type, ..)` sets to
`false`, exactly as listed by the `switch` in the source (lines 1029-1079). -/
def setMatrixInvalidationList : MatrixType → List MatrixType
  | .Projection =>
      [.InvProjection, .InvViewProj, .InvWorldViewProj, .ViewProj, .WorldViewProj]
  | .View =>
      [.InvView, .InvViewProj, .InvWorld, .InvWorldViewProj, .ViewProj, .World, .WorldViewProj]
  | .World =>
      [.InvWorld, .InvWorldView, .InvWorldViewProj, .WorldView, .WorldViewProj]
  | .ViewProj => [.InvViewProj]
  | .WorldView => [.InvWorldView, .WorldViewProj]
  | .WorldViewProj => [.InvWorldViewProj]
  | _ => []

/-- `Renderer::SetMatrix` restricted to the `s_matrices` array: store the
matrix, mark the slot updated, then run the invalidation cascade.
(The `s_updateFlags |= Update_Matrices` part lives in the full renderer
state, below.) -/
def setMatrix (ty : MatrixType) (m : M) (s : MatrixState M) : MatrixState M :=
  let s := setUnit ty { s ty with matrix := m, updated := true } s
  (setMatrixInvalidationList ty).foldl (fun acc t => invalidate t acc) s

/-- `UpdateMatrix` on a base slot: only marks it updated. -/
def updateBase (t : MatrixType) (s : MatrixState M) : MatrixState M :=
  setUnit t { s t with updated := true } s

/-- `UpdateMatrix(ViewProj)`: `ViewProj = View; ViewProj.Concatenate(Projection)`. -/
def updateViewProj (ops : MatrixOps M) (s : MatrixState M) : MatrixState M :=
  setUnit .ViewProj
    { s .ViewProj with
        matrix := ops.concat (s .View).matrix (s .Projection).matrix
        updated := true } s

/-- `UpdateMatrix(WorldView)`: `WorldView = World; WorldView.ConcatenateAffine(View)`. -/
def updateWorldView (ops : MatrixOps M) (s : MatrixState M) : MatrixState M :=
  setUnit .WorldView
    { s .WorldView with
        matrix := ops.concatAffine (s .World).matrix (s .View).matrix
        updated := true } s

/-- `UpdateMatrix(WorldViewProj)`: first refresh `WorldView` if stale, then
concatenate with `Projection`. -/
def updateWorldViewProj (ops : MatrixOps M) (s : MatrixState M) : MatrixState M :=
  let s := if (s .WorldView).updated then s else updateWorldView ops s
  setUnit .WorldViewProj
    { s .WorldViewProj with
        matrix := ops.concat (s .WorldView).matrix (s .Projection).matrix
        updated := true } s

/-- Source slot of each inverse slot (`none` on non-inverse slots). -/
def invSource : MatrixType → Option MatrixType
  | .InvProjection => some .Projection
  | .InvView => some .View
  | .InvViewProj => some .ViewProj
  | .InvWorld => some .World
  | .InvWorldView => some .WorldView
  | .InvWorldViewProj => some .WorldViewProj
  | _ => none

/-- The `NazaraWarning` text emitted when inverting a given slot's source fails. -/
def invWarnMsg : MatrixType → String
  | .InvProjection => "Failed to inverse Proj matrix"
  | .InvView => "Failed to inverse View matrix"
  | .InvViewProj => "Failed to inverse ViewProj matrix"
  | .InvWorld => "Failed to inverse World matrix"
  | .InvWorldView => "Failed to inverse WorldView matrix"
  | .InvWorldViewProj => "Failed to inverse WorldViewProj matrix"
  | _ => ""

/-- `if (!s_matrices[src].updated) UpdateMatrix(src);` for the sources of the
inverse slots. -/
def ensureSource (ops : MatrixOps M) (src : MatrixType) (s : MatrixState M) : MatrixState M :=
  if (s src).updated then s
  else
    match src with
    | .Projection | .View | .World => updateBase src s
    | .ViewProj => updateViewProj ops s
    | .WorldView => updateWorldView ops s
    | .WorldViewProj => updateWorldViewProj ops s
    | _ => s

/-- `UpdateMatrix` on an inverse slot: refresh the source, invert it; on
failure (`GetInverse` returned false) emit a warning and leave the stored
matrix untouched; in all cases mark the slot updated. -/
def updateInv (ops : MatrixOps M) (t src : MatrixType) (msg : String) (s : MatrixState M) :
    MatrixState M × List String :=
  let s := ensureSource ops src s
  match ops.inverse (s src).matrix with
  | some m => (setUnit t { s t with matrix := m, updated := true } s, [])
  | none => (setUnit t { s t with updated := true } s, [msg])

/-- `Renderer::UpdateMatrix`, returning the new state and the warnings emitted. -/
def updateMatrix (ops : MatrixOps M) (t : MatrixType) (s : MatrixState M) :
    MatrixState M × List String :=
  match t with
  | .Projection | .View | .World => (updateBase t s, [])
  | .ViewProj => (updateViewProj ops s, [])
  | .WorldView => (updateWorldView ops s, [])
  | .WorldViewProj => (updateWorldViewProj ops s, [])
  | .InvProjection => updateInv ops .InvProjection .Projection (invWarnMsg .InvProjection) s
  | .InvView => updateInv ops .InvView .View (invWarnMsg .InvView) s
  | .InvViewProj => updateInv ops .InvViewProj .ViewProj (invWarnMsg .InvViewProj) s
  | .InvWorld => updateInv ops .InvWorld .World (invWarnMsg .InvWorld) s
  | .InvWorldView => updateInv ops .InvWorldView .WorldView (invWarnMsg .InvWorldView) s
  | .InvWorldViewProj =>
      updateInv ops .InvWorldViewProj .WorldViewProj (invWarnMsg .InvWorldViewProj) s

/-- `Renderer::GetMatrix`: recompute lazily, return the stored matrix (plus
the resulting state and any warnings). -/
def getMatrix (ops : MatrixOps M) (t : MatrixType) (s : MatrixState M) :
    M × MatrixState M × List String :=
  if (s t).updated then ((s t).matrix, s, [])
  else
    let r := updateMatrix ops t s
    ((r.1 t).matrix, r.1, r.2)

end NzRenderer

namespace NzRenderer

variable {M : Type}

/-! ### Basic lemmas about the matrix cache -/

theorem setUnit_apply (t t' : MatrixType) (u : MatrixUnit M) (s : MatrixState M) :
    setUnit t u s t' = if t' = t then u else s t' := rfl

theorem foldl_invalidate_matrix (l : List MatrixType) (s : MatrixState M) (t' : MatrixType) :
    ((l.foldl (fun acc t => invalidate t acc) s) t').matrix = (s t').matrix := by
  induction l generalizing s with
  | nil => rfl
  | cons a l ih =>
      simp only [List.foldl_cons]
      rw [ih]
      by_cases h : t' = a <;> simp [invalidate, setUnit, h]

theorem foldl_invalidate_location (l : List MatrixType) (s : MatrixState M) (t' : MatrixType) :
    ((l.foldl (fun acc t => invalidate t acc) s) t').location = (s t').location := by
  induction l generalizing s with
  | nil => rfl
  | cons a l ih =>
      simp only [List.foldl_cons]
      rw [ih]
      by_cases h : t' = a <;> simp [invalidate, setUnit, h]

theorem foldl_invalidate_not_mem (l : List MatrixType) (s : MatrixState M) (t' : MatrixType)
    (h : t' ∉ l) : (l.foldl (fun acc t => invalidate t acc) s) t' = s t' := by
  induction l generalizing s with
  | nil => rfl
  | cons a l ih =>
      simp only [List.foldl_cons]
      rw [ih _ (fun hm => h (List.mem_cons_of_mem _ hm))]
      have hne : t' ≠ a := fun he => h (he ▸ List.mem_cons_self a l)
      simp [invalidate, setUnit, hne]

theorem foldl_invalidate_mem (l : List MatrixType) (s : MatrixState M) (t' : MatrixType)
    (h : t' ∈ l) : ((l.foldl (fun acc t => invalidate t acc) s) t').updated = false := by
  induction l generalizing s with
  | nil => cases h
  | cons a l ih =>
      simp only [List.foldl_cons]
      by_cases hm : t' ∈ l
      · exact ih _ hm
      · have : t' = a := by
          rcases List.mem_cons.mp h with h1 | h2
          · exact h1
          · exact absurd h2 hm
        subst this
        rw [foldl_invalidate_not_mem _ _ _ hm]
        simp [invalidate, setUnit]

theorem setMatrix_matrix (ty ty' : MatrixType) (m : M) (s : MatrixState M) :
    (setMatrix ty m s ty').matrix = if ty' = ty then m else (s ty').matrix := by
  unfold setMatrix
  rw [foldl_invalidate_matrix]
  by_cases h : ty' = ty <;> simp [setUnit, h]

/-! ### C1: the invalidation cascade of `SetMatrix` -/

/-- All-updated concrete matrix state over `Int`, as left by `Initialize`. -/
def allUpdatedInt : MatrixState Int := fun _ => { matrix := 0, updated := true, location := -1 }

/-- C1: the claim says setting the View matrix sets `updated = false` on every slot
transitively derived from it, in particular on `WorldView` and `InvWorldView`.
Evaluating `SetMatrix(View, ·)` at a concrete all-updated state shows the code
instead leaves `WorldView` and `InvWorldView` marked updated (stale) while
clearing the flags of `World` and `InvWorld`, which are not derived from View:
the `MatrixType_View` case of the switch lists `World`/`InvWorld` where
`WorldView`/`InvWorldView` were intended. -/
theorem setMatrix_view_misses_worldView :
    ((setMatrix .View (7 : Int) allUpdatedInt) .WorldView).updated = true
    ∧ ((setMatrix .View (7 : Int) allUpdatedInt) .InvWorldView).updated = true
    ∧ ((setMatrix .View (7 : Int) allUpdatedInt) .World).updated = false
    ∧ ((setMatrix .View (7 : Int) allUpdatedInt) .InvWorld).updated = false := by
  refine ⟨?_, ?_, ?_, ?_⟩ <;> rfl

/-! ### C2: `GetMatrix(ViewProj)` returns `View · Projection` -/

/-- Encoding of a sequence of `SetMatrix` calls restricted to the two base
slots: `false` sets `Projection`, `true` sets `View`. -/
def pvType (b : Bool) : MatrixType := if b then .View else .Projection

/-- Apply a sequence of `SetMatrix` calls on Projection/View, first element first. -/
def applyPV : List (Bool × M) → MatrixState M → MatrixState M
  | [], s => s
  | (b, m) :: rest, s => applyPV rest (setMatrix (pvType b) m s)

/-- The value of the last call in the sequence targeting slot `b`, if any. -/
def lastSet (b : Bool) : List (Bool × M) → Option M
  | [] => none
  | (b', m) :: rest =>
      match lastSet b rest with
      | some m' => some m'
      | none => if b' = b then some m else none

theorem pvType_inj (b b' : Bool) : pvType b = pvType b' ↔ b = b' := by
  cases b <;> cases b' <;> simp [pvType]

theorem applyPV_matrix_of_lastSet_none (calls : List (Bool × M)) (s : MatrixState M) (b : Bool)
    (h : lastSet b calls = none) :
    ((applyPV calls s) (pvType b)).matrix = (s (pvType b)).matrix := by
  induction calls generalizing s with
  | nil => rfl
  | cons c rest ih =>
      obtain ⟨b', m⟩ := c
      have hrest : lastSet b rest = none := by
        unfold lastSet at h
        rcases hr : lastSet b rest with _ | m' <;> simp [hr] at h ⊢
      have hne : b' ≠ b := by
        unfold lastSet at h
        rw [hrest] at h
        by_cases hb : b' = b <;> simp [hb] at h ⊢
      unfold applyPV
      rw [ih _ hrest, setMatrix_matrix]
      have : pvType b ≠ pvType b' := fun he => hne (((pvType_inj b b').mp he).symm)
      simp [this]

theorem applyPV_matrix_of_lastSet_some (calls : List (Bool × M)) (s : MatrixState M) (b : Bool)
    (m : M) (h : lastSet b calls = some m) :
    ((applyPV calls s) (pvType b)).matrix = m := by
  induction calls generalizing s with
  | nil => simp [lastSet] at h
  | cons c rest ih =>
      obtain ⟨b', m'⟩ := c
      unfold applyPV
      rcases hr : lastSet b rest with _ | m''
      · unfold lastSet at h
        rw [hr] at h
        by_cases hb : b' = b
        · simp only [hb, if_true] at h
          obtain rfl : m' = m := Option.some.inj h
          rw [hb]
          rw [applyPV_matrix_of_lastSet_none rest _ b hr, setMatrix_matrix]
          simp
        · simp [hb] at h
      · have : m'' = m := by
          unfold lastSet at h
          rw [hr] at h
          exact Option.some.inj h
        subst this
        exact ih _ hr

theorem setMatrix_pv_viewProj_stale (b : Bool) (m : M) (s : MatrixState M) :
    ((setMatrix (pvType b) m s) .ViewProj).updated = false := by
  cases b <;>
    exact foldl_invalidate_mem _ _ _ (by simp [setMatrixInvalidationList, pvType])

theorem applyPV_viewProj_stale (calls : List (Bool × M)) (s : MatrixState M)
    (h : calls ≠ []) : ((applyPV calls s) .ViewProj).updated = false := by
  induction calls generalizing s with
  | nil => exact absurd rfl h
  | cons c rest ih =>
      obtain ⟨b, m⟩ := c
      unfold applyPV
      rcases rest with _ | ⟨c2, rest2⟩
      · exact setMatrix_pv_viewProj_stale b m s
      · exact ih _ (by simp)

/-- C2: for any sequence of `SetMatrix` calls on the Projection and View slots,
in any order, a subsequent `GetMatrix(ViewProj)` returns `View.Concatenate(Projection)`
(the product View · Projection) evaluated at the most recently set values of the
two base slots. -/
theorem getMatrix_viewProj_tracks_latest (ops : MatrixOps M) (calls : List (Bool × M))
    (s : MatrixState M) (pm vm : M)
    (hp : lastSet false calls = some pm) (hv : lastSet true calls = some vm) :
    (getMatrix ops .ViewProj (applyPV calls s)).1 = ops.concat vm pm := by
  have hne : calls ≠ [] := by
    rcases calls with _ | _
    · simp [lastSet] at hv
    · simp
  have hstale := applyPV_viewProj_stale calls s hne
  have hV := applyPV_matrix_of_lastSet_some calls s true vm hv
  have hP := applyPV_matrix_of_lastSet_some calls s false pm hp
  simp only [pvType, if_true, if_false, Bool.false_eq_true] at hV hP
  simp [getMatrix, hstale, updateMatrix, updateViewProj, setUnit, hV, hP]

/-- Concrete operations over `Int` for the C2 witness: a non-commutative product. -/
def opsW : MatrixOps Int := ⟨fun a b => 2*a + b, fun a b => 3*a + b, fun _ => none⟩

/-- Concrete initial matrix state over `Int`. -/
def stW : MatrixState Int := fun _ => { matrix := 1, updated := true, location := -1 }

/-- Witness for C2 at a concrete call sequence. -/
theorem getMatrix_viewProj_tracks_latest_witness :
    lastSet false [(false, (5 : Int)), (true, 3)] = some 5
    ∧ lastSet true [(false, (5 : Int)), (true, 3)] = some 3
    ∧ (getMatrix opsW .ViewProj (applyPV [(false, (5 : Int)), (true, 3)] stW)).1 = 11 :=
  ⟨rfl, rfl, by
    have h := getMatrix_viewProj_tracks_latest opsW [(false, (5 : Int)), (true, 3)] stW 5 3 rfl rfl
    rw [h]; rfl⟩

/-! ### C3: singular-matrix inversion is non-fatal -/

/-- C3: for every inverse slot, when its source is up to date and singular,
recomputation through `GetMatrix` emits exactly the inversion warning, leaves
the inverse slot's stored matrix at its previous value while marking the slot
updated, changes no other slot, and returns that previous (defined) value. -/
theorem getMatrix_inverse_singular (ops : MatrixOps M) (t src : MatrixType) (s : MatrixState M)
    (hsrc : invSource t = some src)
    (hstale : (s t).updated = false)
    (hupd : (s src).updated = true)
    (hinv : ops.inverse (s src).matrix = none) :
    (getMatrix ops t s).1 = (s t).matrix
    ∧ (getMatrix ops t s).2.1 t = { s t with updated := true }
    ∧ (∀ u, u ≠ t → (getMatrix ops t s).2.1 u = s u)
    ∧ (getMatrix ops t s).2.2 = [invWarnMsg t] := by
  have key : updateMatrix ops t s = (setUnit t { s t with updated := true } s, [invWarnMsg t]) := by
    cases t <;> simp only [invSource, Option.some.injEq, reduceCtorEq] at hsrc <;>
      subst hsrc <;>
      simp [updateMatrix, updateInv, ensureSource, hupd, hinv]
  refine ⟨?_, ?_, ?_, ?_⟩ <;>
    simp [getMatrix, hstale, key, setUnit] <;> intros <;> simp_all [setUnit]

/-- Inversion-always-fails operations over `Int` for the C3 witness. -/
def opsNoInv : MatrixOps Int := ⟨fun a b => a + b, fun a b => a + b, fun _ => none⟩

/-- Concrete state for the C3 witness: `InvView` stale with previous value 42,
`View` up to date. -/
def stInv : MatrixState Int := fun t =>
  if t = .InvView then { matrix := 42, updated := false, location := -1 }
  else { matrix := 5, updated := true, location := -1 }

/-- Witness for C3 at slot `InvView` with a singular `View` matrix. -/
theorem getMatrix_inverse_singular_witness :
    (getMatrix opsNoInv .InvView stInv).1 = 42
    ∧ (getMatrix opsNoInv .InvView stInv).2.2 = ["Failed to inverse View matrix"] := by
  have h := getMatrix_inverse_singular opsNoInv .InvView .View stInv rfl rfl rfl rfl
  exact ⟨by rw [h.1]; rfl, by rw [h.2.2.2]; rfl⟩

end NzRenderer

namespace NzRenderer

variable {M : Type}

/-!
### Full renderer state

External collaborators (shaders, render targets, buffers, vertex
declarations, the GL function-pointer environment) are addressed by natural
identities and queried through an `Env` record; backend calls are recorded
as a command trace.
-/

/-- The `VAO_Key` tuple: index buffer, vertex buffer, base vertex
declaration, instancing declaration — compared by identity (null allowed for
the index buffer and the instancing declaration). -/
structure VAOKey where
  ib : Option Nat
  vb : Nat
  decl : Nat
  inst : Option Nat
deriving DecidableEq, Repr

/-- The per-context `VAO_Map`: key to backend VAO handle (`VAO_Entry::vao`). -/
abbrev VAOMap := List (VAOKey × Nat)

/-- `s_vaos`: context identity to that context's `VAO_Map`. -/
abbrev ContextMap := List (Nat × VAOMap)

def lookupKey (k : VAOKey) : VAOMap → Option Nat
  | [] => none
  | (k', h) :: rest => if k' = k then some h else lookupKey k rest

def insertKey (k : VAOKey) (h : Nat) (m : VAOMap) : VAOMap := (k, h) :: m

/-- `vaoIt->second.vao = v`: overwrite the handle stored for an existing key. -/
def setKeyHandle (k : VAOKey) (h : Nat) : VAOMap → VAOMap
  | [] => []
  | (k', h') :: rest => if k' = k then (k', h) :: rest else (k', h') :: setKeyHandle k h rest

def lookupCtx (c : Nat) : ContextMap → Option VAOMap
  | [] => none
  | (c', m) :: rest => if c' = c then some m else lookupCtx c rest

def setCtx (c : Nat) (m : VAOMap) : ContextMap → ContextMap
  | [] => [(c, m)]
  | (c', m') :: rest => if c' = c then (c, m) :: rest else (c', m') :: setCtx c m rest

/-- The `ComponentType` enum values handled by `EnsureStateUpdate`. -/
inductive ComponentType where
  | Color
  | Double1 | Double2 | Double3 | Double4
  | Float1 | Float2 | Float3 | Float4
  | Int1 | Int2 | Int3 | Int4
  | Quaternion
deriving DecidableEq, Repr

/-- The four bits of `s_updateFlags`. -/
structure UpdateFlags where
  matrices : Bool
  shader : Bool
  textures : Bool
  vao : Bool
deriving DecidableEq, Repr

/-- `Update_None`. -/
def noFlags : UpdateFlags := ⟨false, false, false, false⟩

/-- `s_updateFlags != Update_None`. -/
def UpdateFlags.any (f : UpdateFlags) : Bool := f.matrices || f.shader || f.textures || f.vao

/-- The shader uniforms queried by `EnsureStateUpdate`. -/
inductive ShaderUniform where
  | InvProjMatrix | InvTargetSize | InvViewMatrix | InvViewProjMatrix | InvWorldMatrix
  | InvWorldViewMatrix | InvWorldViewProjMatrix | ProjMatrix | TargetSize | ViewMatrix
  | ViewProjMatrix | WorldMatrix | WorldViewMatrix | WorldViewProjMatrix
deriving DecidableEq, Repr

/-- Which uniform each matrix slot resolves against. -/
def matrixUniform : MatrixType → ShaderUniform
  | .InvProjection => .InvProjMatrix
  | .InvView => .InvViewMatrix
  | .InvViewProj => .InvViewProjMatrix
  | .InvWorld => .InvWorldMatrix
  | .InvWorldView => .InvWorldViewMatrix
  | .InvWorldViewProj => .InvWorldViewProjMatrix
  | .Projection => .ProjMatrix
  | .View => .ViewMatrix
  | .ViewProj => .ViewProjMatrix
  | .World => .WorldMatrix
  | .WorldView => .WorldViewMatrix
  | .WorldViewProj => .WorldViewProjMatrix

/-- A texture unit (`TextureUnit` of Renderer.cpp), sampler configuration
elided to the identity of the bound texture and the `samplerUpdated` flag. -/
structure TexUnit where
  texture : Option Nat
  samplerUpdated : Bool
deriving DecidableEq, Repr

/-- The primitive modes of the draw facade. -/
inductive PrimitiveMode where
  | LineList | LineStrip | PointList | TriangleFan | TriangleList | TriangleStrip
deriving DecidableEq, Repr

/-- Backend (OpenGL) calls, recorded as a trace. -/
inductive Cmd (M : Type) where
  | ensureTarget (target : Nat)
  | bindShader (shader : Nat)
  | deactivateTarget (target : Nat)
  | activateTarget (target : Nat)
  | sendVector (location : Int) (u : ShaderUniform)
  | sendMatrix (location : Int) (slot : MatrixType) (value : M)
  | bindSampler (unit : Nat)
  | applySampler (unit : Nat)
  | genVertexArray (vao : Nat)
  | bindVertexArray (vao : Nat)
  | deleteVertexArray (ctx : Nat) (vao : Nat)
  | bindBuffer (buffer : Nat)
  | bindIndexBuffer (buffer : Nat)
  | enableAttrib (component : Nat)
  | disableAttrib (component : Nat)
  | attribPointer (component : Nat) (ty : ComponentType)
  | attribDivisor (component : Nat)
  | bindTexture (unit : Nat) (texture : Nat)
  | applyStates
  | drawArrays (mode : PrimitiveMode) (firstVertex vertexCount : Nat)
  | drawArraysInstanced (mode : PrimitiveMode) (firstVertex vertexCount instanceCount : Nat)
  | drawElements (mode : PrimitiveMode) (firstIndex indexCount : Nat)
  | drawElementsInstanced (mode : PrimitiveMode) (firstIndex indexCount instanceCount : Nat)
deriving DecidableEq, Repr

/-- Is the command a draw submission? -/
def Cmd.isDraw : Cmd M → Bool
  | .drawArrays _ _ _ => true
  | .drawArraysInstanced _ _ _ _ => true
  | .drawElements _ _ _ => true
  | .drawElementsInstanced _ _ _ _ => true
  | _ => false

/-- Effects of one renderer operation: backend command trace, reported
errors (`NazaraError`) and warnings (`NazaraWarning`). -/
structure Eff (M : Type) where
  cmds : List (Cmd M)
  errors : List String
  warnings : List String
deriving Repr

def Eff.nil : Eff M := ⟨[], [], []⟩

def Eff.seq (a b : Eff M) : Eff M := ⟨a.cmds ++ b.cmds, a.errors ++ b.errors, a.warnings ++ b.warnings⟩

def effErr (msg : String) : Eff M := ⟨[], [msg], []⟩

def effCmds (cs : List (Cmd M)) : Eff M := ⟨cs, [], []⟩

/-- The external collaborators consumed by the renderer, addressed by
identity: structural queries on shaders, render targets, buffers and vertex
declarations, plus the presence flags of the two optional attribute-pointer
entry points. -/
structure Env (M : Type) where
  ops : MatrixOps M
  uniformLoc : Nat → ShaderUniform → Int
  shaderValid : Nat → Bool
  targetRenderable : Nat → Bool
  targetActivate : Nat → Bool
  targetHasContext : Nat → Bool
  targetWidth : Nat → Nat
  targetHeight : Nat → Nat
  vbIsHardware : Nat → Bool
  ibIsHardware : Nat → Bool
  vbDecl : Nat → Nat
  vbGLId : Nat → Nat
  ibGLId : Nat → Nat
  declComponent : Nat → Nat → Option ComponentType
  hasLPointer : Bool
  hasIPointer : Bool

/-- Modelled from the spec: the per-vertex component indices
(`VertexComponent_FirstVertexData .. VertexComponent_LastVertexData` of the
external Utility enum). -/
def vertexDataComponents : List Nat := [0, 1, 2, 3, 4, 5, 6, 7, 8]

/-- Modelled from the spec: the per-instance component indices
(`VertexComponent_FirstInstanceData .. VertexComponent_LastInstanceData`). -/
def instanceDataComponents : List Nat := [9, 10, 11, 12, 13, 14]

/-- The tracked renderer state (the file-scope `s_*` globals of Renderer.cpp
that the claims touch). -/
structure RendererState (M : Type) where
  matrices : MatrixState M
  updateFlags : UpdateFlags
  indexBuffer : Option Nat
  vertexBuffer : Option Nat
  shader : Option Nat
  target : Option Nat
  targetSize : Nat × Nat
  instancing : Bool
  instanceBufferCapacity : Nat
  instanceBufferDecl : Nat
  instanceBufferGLId : Nat
  capInstancing : Bool
  useVAO : Bool
  useSamplerObjects : Bool
  maxTextureUnit : Nat
  textureUnits : List TexUnit
  dirtyTextureUnits : List Nat
  vaos : ContextMap
  currentVAO : Nat
  nextVAO : Nat
  currentContext : Option Nat

/-- `Renderer::IsComponentTypeSupported`: floats and colors always, doubles
and integers only when the corresponding GL entry point exists, quaternions
never. -/
def isComponentTypeSupported (env : Env M) : ComponentType → Bool
  | .Color | .Float1 | .Float2 | .Float3 | .Float4 => true
  | .Double1 | .Double2 | .Double3 | .Double4 => env.hasLPointer
  | .Int1 | .Int2 | .Int3 | .Int4 => env.hasIPointer
  | .Quaternion => false

end NzRenderer

namespace NzRenderer

variable {M : Type}

/-! ### Setters (draw facade state mutators) -/

/-- `Renderer::SetMatrix` on the full renderer state: update the matrix
cache and raise the Matrices dirty bit. -/
def setMatrixR (ty : MatrixType) (m : M) (st : RendererState M) : RendererState M :=
  { st with
      matrices := setMatrix ty m st.matrices
      updateFlags := { st.updateFlags with matrices := true } }

/-- `Renderer::SetIndexBuffer`. -/
def setIndexBuffer (env : Env M) (ib : Option Nat) (st : RendererState M) :
    RendererState M × Eff M :=
  if (match ib with | some b => !env.ibIsHardware b | none => false) then
    (st, effErr "Buffer must be hardware")
  else if st.indexBuffer = ib then (st, Eff.nil)
  else
    ({ st with indexBuffer := ib, updateFlags := { st.updateFlags with vao := true } }, Eff.nil)

/-- `Renderer::SetVertexBuffer`: note the null guard — a null pointer is
never stored. -/
def setVertexBuffer (env : Env M) (vb : Option Nat) (st : RendererState M) :
    RendererState M × Eff M :=
  match vb with
  | none => (st, Eff.nil)
  | some b =>
      if !env.vbIsHardware b then (st, effErr "Buffer must be hardware")
      else if st.vertexBuffer = some b then (st, Eff.nil)
      else
        ({ st with vertexBuffer := some b,
                   updateFlags := { st.updateFlags with vao := true } }, Eff.nil)

/-- `Renderer::SetShader`. -/
def setShader (env : Env M) (sh : Option Nat) (st : RendererState M) :
    RendererState M × Eff M :=
  if (match sh with | some s => !env.shaderValid s | none => false) then
    (st, effErr "Invalid shader")
  else if st.shader = sh then (st, Eff.nil)
  else
    ({ st with shader := sh, updateFlags := { st.updateFlags with shader := true } }, Eff.nil)

/-- `Renderer::SetTarget`: deactivate the previous target, validate and
activate the new one. Returns the success flag. -/
def setTarget (env : Env M) (t : Option Nat) (st : RendererState M) :
    Bool × RendererState M × Eff M :=
  if st.target = t then (true, st, Eff.nil)
  else
    let dea : List (Cmd M) :=
      match st.target with
      | some old => if !env.targetHasContext old then [.deactivateTarget old] else []
      | none => []
    let st1 := { st with target := none }
    match t with
    | none => (true, st1, effCmds dea)
    | some tg =>
        if !env.targetRenderable tg then
          (false, st1, (effCmds dea).seq (effErr "Target not renderable"))
        else if !env.targetActivate tg then
          (false, st1, (effCmds dea).seq (effErr "Failed to activate target"))
        else
          (true, { st1 with target := some tg }, effCmds (dea ++ [.activateTarget tg]))

/-- `Renderer::EnableInstancing`. -/
def enableInstancing (b : Bool) (st : RendererState M) : RendererState M :=
  if st.instancing ≠ b then
    { st with updateFlags := { st.updateFlags with vao := true }, instancing := b }
  else st

/-! ### The reconciliation engine (`EnsureStateUpdate`), phase by phase -/

/-- Shader-dirty transition: re-resolve every matrix slot's uniform location
against the (newly bound) program, force the target-size uniforms and a full
matrix resend, clear the Shader bit. -/
def resolveLocations (env : Env M) (sh : Nat) (s : MatrixState M) : MatrixState M :=
  fun t => { s t with location := env.uniformLoc sh (matrixUniform t) }

def shaderPhase (env : Env M) (sh : Nat) (st : RendererState M) : RendererState M :=
  if st.updateFlags.shader then
    { st with
        matrices := resolveLocations env sh st.matrices
        targetSize := (0, 0)
        updateFlags := { st.updateFlags with matrices := true, shader := false } }
  else st

/-- Send the target-size uniforms when the cached target size changed. -/
def targetSizePhase (env : Env M) (sh tg : Nat) (st : RendererState M) :
    RendererState M × Eff M :=
  let ts := (env.targetWidth tg, env.targetHeight tg)
  if st.targetSize ≠ ts then
    let loc1 := env.uniformLoc sh .InvTargetSize
    let loc2 := env.uniformLoc sh .TargetSize
    let c1 : List (Cmd M) := if loc1 ≠ -1 then [.sendVector loc1 .InvTargetSize] else []
    let c2 : List (Cmd M) := if loc2 ≠ -1 then [.sendVector loc2 .TargetSize] else []
    ({ st with targetSize := ts }, effCmds (c1 ++ c2))
  else (st, Eff.nil)

/-- Flush one dirty texture unit: when a texture is bound and its sampler is
stale, bind the sampler object (or apply the sampler in fallback mode) and
mark the sampler applied. -/
def flushUnit (useSampler : Bool) (units : List TexUnit) (i : Nat) :
    List TexUnit × List (Cmd M) :=
  match units[i]? with
  | none => (units, [])
  | some u =>
      if u.texture.isSome && !u.samplerUpdated then
        (units.set i { u with samplerUpdated := true },
         if useSampler then [.bindSampler i] else [.applySampler i])
      else (units, [])

/-- The dirty-unit queue drain loop. -/
def textureLoop (useSampler : Bool) : List Nat → List TexUnit → List TexUnit × List (Cmd M)
  | [], units => (units, [])
  | i :: rest, units =>
      let fu := flushUnit useSampler units i
      let r := textureLoop useSampler rest fu.1
      (r.1, fu.2 ++ r.2)

/-- Textures-dirty: drain the dirty-unit queue. -/
def texturePhase (st : RendererState M) : RendererState M × Eff M :=
  if st.updateFlags.textures then
    let r := textureLoop st.useSamplerObjects st.dirtyTextureUnits st.textureUnits
    ({ st with
        textureUnits := r.1
        dirtyTextureUnits := []
        updateFlags := { st.updateFlags with textures := false } }, effCmds r.2)
  else (st, Eff.nil)

/-- The `s_matrices` iteration order of the `for (i = 0; i <= MatrixType_Max; ++i)`
loop. -/
def matrixTypeList : List MatrixType :=
  [.InvProjection, .InvView, .InvViewProj, .InvWorld, .InvWorldView, .InvWorldViewProj,
   .Projection, .View, .ViewProj, .World, .WorldView, .WorldViewProj]

/-- One iteration of the matrix resend loop: slots without a resolved
location are skipped; stale slots are recomputed, then sent. -/
def sendOne (ops : MatrixOps M) (t : MatrixType) (s : MatrixState M) :
    MatrixState M × List (Cmd M) × List String :=
  if (s t).location ≠ -1 then
    let r := if (s t).updated then (s, ([] : List String)) else updateMatrix ops t s
    (r.1, [.sendMatrix (r.1 t).location t (r.1 t).matrix], r.2)
  else (s, [], [])

/-- The matrix resend loop over the slot enumeration. -/
def sendLoop (ops : MatrixOps M) :
    List MatrixType → MatrixState M → MatrixState M × List (Cmd M) × List String
  | [], s => (s, [], [])
  | t :: rest, s =>
      let so := sendOne ops t s
      let r := sendLoop ops rest so.1
      (r.1, so.2.1 ++ r.2.1, so.2.2 ++ r.2.2)

/-- Matrices-dirty: for every slot with a resolved location, refresh it if
stale and send it. -/
def matrixPhase (ops : MatrixOps M) (st : RendererState M) : RendererState M × Eff M :=
  if st.updateFlags.matrices then
    let r := sendLoop ops matrixTypeList st.matrices
    ({ st with
        matrices := r.1
        updateFlags := { st.updateFlags with matrices := false } },
     ⟨r.2.1, [], r.2.2⟩)
  else (st, Eff.nil)

/-- Walk the enabled components of one declaration, binding each attribute;
an unsupported component type reports an error and aborts the walk. Returns
(commands, errors, failed). -/
def buildComponents (env : Env M) (declId : Nat) (isInstance : Bool) :
    List Nat → List (Cmd M) × List String × Bool
  | [] => ([], [], false)
  | j :: rest =>
      match env.declComponent declId j with
      | none =>
          let r := buildComponents env declId isInstance rest
          (Cmd.disableAttrib j :: r.1, r.2.1, r.2.2)
      | some ty =>
          if !isComponentTypeSupported env ty then
            ([], ["Invalid vertex declaration: component type not supported"], true)
          else
            let head := [Cmd.enableAttrib j, Cmd.attribPointer j ty] ++
              (if isInstance then [Cmd.attribDivisor j] else [])
            let r := buildComponents env declId isInstance rest
            (head ++ r.1, r.2.1, r.2.2)

/-- Program the attribute bindings of a (new or uncached) vertex layout:
vertex-data components of the bound vertex buffer, then (when instancing)
instance-data components of the instance buffer, then the index buffer. -/
def buildVAO (env : Env M) (vb : Nat) (instancing : Bool) (instDecl instGL : Nat)
    (ib : Option Nat) : List (Cmd M) × List String × Bool :=
  let r0 := buildComponents env (env.vbDecl vb) false vertexDataComponents
  let part0 : List (Cmd M) := Cmd.bindBuffer (env.vbGLId vb) :: r0.1
  let r1 :=
    if instancing then
      let rr := buildComponents env instDecl true instanceDataComponents
      (Cmd.bindBuffer instGL :: rr.1, rr.2.1, rr.2.2)
    else ([], [], false)
  let disables : List (Cmd M) :=
    if !instancing then instanceDataComponents.map Cmd.disableAttrib else []
  let ibCmd : List (Cmd M) :=
    match ib with
    | some b => [Cmd.bindIndexBuffer (env.ibGLId b)]
    | none => [Cmd.bindIndexBuffer 0]
  (part0 ++ r1.1 ++ disables ++ ibCmd, r0.2.1 ++ r1.2.1, r0.2.2 || r1.2.2)

/-- The identity-keyed cache lookup of `EnsureStateUpdate`: ensure the
context has an entry table, look the key up; on a miss generate a fresh
backend handle (modelled as a counter) and insert. Returns the updated
context map, the handle, the new counter, and whether the entry is new. -/
def vaoLookupOrCreate (key : VAOKey) (ctx : Nat) (vaos : ContextMap) (nextVAO : Nat) :
    ContextMap × Nat × Nat × Bool :=
  match lookupKey key ((lookupCtx ctx vaos).getD []) with
  | some h => (setCtx ctx ((lookupCtx ctx vaos).getD []) vaos, h, nextVAO, false)
  | none =>
      (setCtx ctx (insertKey key nextVAO ((lookupCtx ctx vaos).getD [])) vaos,
       nextVAO, nextVAO + 1, true)

/-- The `VAO_Key` built by `EnsureStateUpdate` for the currently bound
resources: index buffer, vertex buffer, its declaration, and the instance
buffer's declaration when instancing is active. -/
def mkKey (env : Env M) (vb : Nat) (st : RendererState M) : VAOKey :=
  ⟨st.indexBuffer, vb, env.vbDecl vb,
   if st.instancing then some st.instanceBufferDecl else none⟩

/-- VertexLayout-dirty: resolve or create the cache entry and program it on a
miss; on a failed build the backend object is deleted and the entry's handle
zeroed (the entry itself stays in the map); in fallback mode (no VAO
support) attributes are re-declared and the dirty bit is left set. The
first component is false exactly on the `No vertex buffer` abort. -/
def vaoPhase (env : Env M) (ctx : Nat) (st : RendererState M) :
    Bool × RendererState M × Eff M :=
  if st.updateFlags.vao then
    match st.vertexBuffer with
    | none => (false, st, effErr "No vertex buffer")
    | some vb =>
        if st.useVAO then
          match vaoLookupOrCreate (mkKey env vb st) ctx st.vaos st.nextVAO with
          | (vaos', handle, next', isNew) =>
            let st1 := { st with vaos := vaos', currentVAO := handle, nextVAO := next' }
            if isNew then
              let genCmds : List (Cmd M) := [.genVertexArray handle, .bindVertexArray handle]
              let b := buildVAO env vb st.instancing st.instanceBufferDecl
                st.instanceBufferGLId st.indexBuffer
              if b.2.2 then
                let st2 := { st1 with
                  vaos := setCtx ctx
                    (setKeyHandle (mkKey env vb st) 0 ((lookupCtx ctx st1.vaos).getD []))
                    st1.vaos
                  currentVAO := 0
                  updateFlags := { st1.updateFlags with vao := false } }
                (true, st2, ⟨genCmds ++ b.1 ++ [.deleteVertexArray ctx handle], b.2.1, []⟩)
              else
                (true, { st1 with updateFlags := { st1.updateFlags with vao := false } },
                 ⟨genCmds ++ b.1 ++ [.bindVertexArray 0], b.2.1, []⟩)
            else
              (true, { st1 with updateFlags := { st1.updateFlags with vao := false } }, Eff.nil)
        else
          let b := buildVAO env vb st.instancing st.instanceBufferDecl
            st.instanceBufferGLId st.indexBuffer
          (true, st, ⟨b.1, b.2.1, []⟩)
  else (true, st, Eff.nil)

/-- The per-unit texture re-verification run on every reconciliation. -/
def textureRebindLoop : Nat → List TexUnit → List (Cmd M)
  | _, [] => []
  | i, u :: rest =>
      match u.texture with
      | some t => Cmd.bindTexture i t :: textureRebindLoop (i + 1) rest
      | none => textureRebindLoop (i + 1) rest

/-- Re-verify, for every unit, that the backend's bound texture matches the
tracked one. -/
def textureRebindCmds (units : List TexUnit) : List (Cmd M) :=
  textureRebindLoop 0 units

/-- `Renderer::EnsureStateUpdate`: preconditions, shader-dirty transition,
target-size uniforms, dirty-flag-driven flush of textures, matrices and the
vertex layout, final VAO bind, texture re-verification and unconditional
render-state reapplication. -/
def ensureStateUpdate (env : Env M) (st : RendererState M) :
    Bool × RendererState M × Eff M :=
  match st.currentContext with
  | none => (false, st, effErr "No active context")
  | some ctx =>
  match st.shader with
  | none => (false, st, effErr "No shader")
  | some sh =>
  match st.target with
  | none => (false, st, effErr "No target")
  | some tg =>
    let e0 : Eff M := effCmds [.ensureTarget tg, .bindShader sh]
    let st1 := shaderPhase env sh st
    let p2 := targetSizePhase env sh tg st1
    let p3 :=
      if p2.1.updateFlags.any then
        let pa := texturePhase p2.1
        let pb := matrixPhase env.ops pa.1
        let pc := vaoPhase env ctx pb.1
        (pc.1, pc.2.1, (pa.2.seq pb.2).seq pc.2.2)
      else (true, p2.1, Eff.nil)
    let eAll := (e0.seq p2.2).seq p3.2.2
    if !p3.1 then (false, p3.2.1, eAll)
    else if p3.2.1.useVAO && p3.2.1.currentVAO == 0 then
      (false, p3.2.1, eAll.seq (effErr "Failed to create VAO"))
    else
      let bindCmd : List (Cmd M) :=
        if p3.2.1.useVAO then [.bindVertexArray p3.2.1.currentVAO] else []
      (true, p3.2.1,
       eAll.seq (effCmds (bindCmd ++ textureRebindCmds p3.2.1.textureUnits ++ [.applyStates])))

/-! ### Draw facade -/

/-- `Renderer::DrawPrimitives`. -/
def drawPrimitives (env : Env M) (mode : PrimitiveMode) (firstVertex vertexCount : Nat)
    (st : RendererState M) : RendererState M × Eff M :=
  match st.currentContext with
  | none => (st, effErr "No active context")
  | some _ =>
      let st := enableInstancing false st
      let r := ensureStateUpdate env st
      if !r.1 then (r.2.1, r.2.2.seq (effErr "Failed to update states"))
      else
        let post : List (Cmd M) := if r.2.1.useVAO then [.bindVertexArray 0] else []
        (r.2.1, r.2.2.seq (effCmds (Cmd.drawArrays mode firstVertex vertexCount :: post)))

/-- `Renderer::DrawPrimitivesInstanced`: validity checks precede any state
mutation or backend call. -/
def drawPrimitivesInstanced (env : Env M) (instanceCount : Nat) (mode : PrimitiveMode)
    (firstVertex vertexCount : Nat) (st : RendererState M) : RendererState M × Eff M :=
  match st.currentContext with
  | none => (st, effErr "No active context")
  | some _ =>
      if !st.capInstancing then (st, effErr "Instancing not supported")
      else if instanceCount = 0 then (st, effErr "Instance count must be over zero")
      else if st.instanceBufferCapacity < instanceCount then
        (st, effErr "Instance count is over maximum instance count")
      else
        let st := enableInstancing true st
        let r := ensureStateUpdate env st
        if !r.1 then (r.2.1, r.2.2.seq (effErr "Failed to update states"))
        else
          let post : List (Cmd M) := if r.2.1.useVAO then [.bindVertexArray 0] else []
          (r.2.1, r.2.2.seq
            (effCmds (Cmd.drawArraysInstanced mode firstVertex vertexCount instanceCount :: post)))

/-! ### Release notification handlers -/

/-- Erase every entry of one context map matching the predicate, deleting
each backend object under its originating context. -/
def evictEntries (p : VAOKey → Bool) (ctx : Nat) : VAOMap → VAOMap × List (Cmd M)
  | [] => ([], [])
  | (k, h) :: rest =>
      let r := evictEntries p ctx rest
      if p k then (r.1, Cmd.deleteVertexArray ctx h :: r.2) else ((k, h) :: r.1, r.2)

/-- Scan every context's map. -/
def releaseScan (p : VAOKey → Bool) : ContextMap → ContextMap × List (Cmd M)
  | [] => ([], [])
  | (c, m) :: rest =>
      let r := evictEntries p c m
      let r' := releaseScan p rest
      ((c, r.1) :: r'.1, r.2 ++ r'.2)

/-- `Renderer::OnIndexBufferRelease`. -/
def onIndexBufferRelease (ib : Nat) (st : RendererState M) : RendererState M × Eff M :=
  let r := releaseScan (fun k => k.ib == some ib) st.vaos
  ({ st with vaos := r.1 }, effCmds r.2)

/-- `Renderer::OnVertexBufferRelease`. -/
def onVertexBufferRelease (vb : Nat) (st : RendererState M) : RendererState M × Eff M :=
  let r := releaseScan (fun k => k.vb == vb) st.vaos
  ({ st with vaos := r.1 }, effCmds r.2)

/-- `Renderer::OnVertexDeclarationRelease`: matches the base declaration or
the instancing declaration of the key. -/
def onVertexDeclarationRelease (d : Nat) (st : RendererState M) : RendererState M × Eff M :=
  let r := releaseScan (fun k => k.decl == d || k.inst == some d) st.vaos
  ({ st with vaos := r.1 }, effCmds r.2)

/-- `Renderer::OnContextRelease`. -/
def onContextRelease (c : Nat) (st : RendererState M) : RendererState M :=
  { st with vaos := st.vaos.filter (fun e => e.1 ≠ c) }

/-- The state established by `Renderer::Initialize` (capability query
results and buffer identities are parameters; matrices are identity,
up to date, unresolved; the Matrices, Shader and VAO bits start raised). -/
def initState (ident : M) (capInstancing useVAO useSamplerObjects : Bool)
    (maxTextureUnit instCap instDecl instGL : Nat) (ctx : Nat) : RendererState M :=
  { matrices := fun _ => { matrix := ident, updated := true, location := -1 }
    updateFlags := { matrices := true, shader := true, textures := false, vao := true }
    indexBuffer := none
    vertexBuffer := none
    shader := none
    target := none
    targetSize := (0, 0)
    instancing := false
    instanceBufferCapacity := instCap
    instanceBufferDecl := instDecl
    instanceBufferGLId := instGL
    capInstancing := capInstancing
    useVAO := useVAO
    useSamplerObjects := useSamplerObjects
    maxTextureUnit := maxTextureUnit
    textureUnits := List.replicate maxTextureUnit ⟨none, false⟩
    dirtyTextureUnits := []
    vaos := []
    currentVAO := 0
    nextVAO := 1
    currentContext := some ctx }

end NzRenderer

namespace NzRenderer

variable {M : Type}

/-! ### Shared concrete environment and states for witnesses -/

/-- An innocuous concrete environment over `Int`. -/
def envW : Env Int :=
  { ops := opsW
    uniformLoc := fun _ _ => -1
    shaderValid := fun _ => true
    targetRenderable := fun _ => true
    targetActivate := fun _ => true
    targetHasContext := fun _ => true
    targetWidth := fun _ => 800
    targetHeight := fun _ => 600
    vbIsHardware := fun _ => true
    ibIsHardware := fun _ => true
    vbDecl := fun _ => 0
    vbGLId := fun v => v
    ibGLId := fun v => v
    declComponent := fun _ _ => none
    hasLPointer := true
    hasIPointer := true }

/-- Concrete post-`Initialize` state over `Int` (no instancing, VAOs
supported, 2 texture units, instance-buffer capacity 4). -/
def stInit : RendererState Int := initState 0 true true true 2 4 50 60 7

/-! ### C8: instanced draw beyond the instance-buffer capacity -/

/-- C8: for every instance count strictly greater than the instance buffer's
configured vertex capacity, `DrawPrimitivesInstanced` reports an error,
issues no backend command at all (in particular no draw command), and leaves
the tracked renderer state unchanged. -/
theorem drawPrimitivesInstanced_over_capacity (env : Env M) (st : RendererState M)
    (instanceCount : Nat) (mode : PrimitiveMode) (firstVertex vertexCount : Nat)
    (h : st.instanceBufferCapacity < instanceCount) :
    (drawPrimitivesInstanced env instanceCount mode firstVertex vertexCount st).1 = st
    ∧ (drawPrimitivesInstanced env instanceCount mode firstVertex vertexCount st).2.cmds = []
    ∧ (drawPrimitivesInstanced env instanceCount mode firstVertex vertexCount st).2.errors ≠ [] := by
  have hzero : instanceCount ≠ 0 := by omega
  unfold drawPrimitivesInstanced
  rcases hc : st.currentContext with _ | c
  · exact ⟨rfl, rfl, by simp [effErr]⟩
  · rcases hcap : st.capInstancing with _ | _
    · exact ⟨rfl, rfl, by simp [effErr]⟩
    · simp [hzero, h, effErr]

/-- Witness for C8: capacity 4, instance count 5. -/
theorem drawPrimitivesInstanced_over_capacity_witness :
    stInit.instanceBufferCapacity < 5
    ∧ (drawPrimitivesInstanced envW 5 .TriangleList 0 3 stInit).1 = stInit
    ∧ (drawPrimitivesInstanced envW 5 .TriangleList 0 3 stInit).2.cmds = [] := by
  have h := drawPrimitivesInstanced_over_capacity envW stInit 5 .TriangleList 0 3 (by decide)
  exact ⟨by decide, h.1, h.2.1⟩

/-! ### C10: null-pointer handling of SetVertexBuffer vs SetIndexBuffer -/

/-- A concrete state with no tracked index buffer and all dirty bits clear. -/
def stNoDirty : RendererState Int := { stInit with updateFlags := noFlags }

/-- C10 counterexample: the claim says `SetIndexBuffer(nullptr)` marks the
vertex-layout state dirty; on a state whose tracked index buffer is already
null the call does not raise the dirty bit (the `s_indexBuffer != indexBuffer`
guard fails), so the claim as stated is false. -/
theorem setIndexBuffer_null_counterexample :
    stNoDirty.indexBuffer = none
    ∧ stNoDirty.updateFlags.vao = false
    ∧ (setIndexBuffer envW none stNoDirty).1.updateFlags.vao = false := by
  exact ⟨rfl, rfl, rfl⟩

/-- C10 (amended): `SetVertexBuffer(nullptr)` leaves the whole tracked state
unchanged and reports nothing; `SetIndexBuffer(nullptr)` clears the tracked
index buffer and raises the vertex-layout dirty bit when an index buffer was
tracked, and is a no-op when none was. -/
theorem setBuffer_null_behaviour (env : Env M) (st : RendererState M) :
    setVertexBuffer env none st = (st, Eff.nil)
    ∧ (∀ b, st.indexBuffer = some b →
        setIndexBuffer env none st =
          ({ st with indexBuffer := none,
                     updateFlags := { st.updateFlags with vao := true } }, Eff.nil))
    ∧ (st.indexBuffer = none → setIndexBuffer env none st = (st, Eff.nil)) := by
  refine ⟨rfl, ?_, ?_⟩
  · intro b hb
    simp [setIndexBuffer, hb]
  · intro hb
    simp [setIndexBuffer, hb]

/-- A concrete state with a tracked index buffer and all dirty bits clear. -/
def stWithIB : RendererState Int := { stInit with indexBuffer := some 9, updateFlags := noFlags }

/-- Witness for C10 (amended) at both a tracked and an untracked index buffer. -/
theorem setBuffer_null_behaviour_witness :
    setVertexBuffer envW none stWithIB = (stWithIB, Eff.nil)
    ∧ (setIndexBuffer envW none stWithIB).1.indexBuffer = none
    ∧ (setIndexBuffer envW none stWithIB).1.updateFlags.vao = true
    ∧ setIndexBuffer envW none stNoDirty = (stNoDirty, Eff.nil) := by
  have h1 := setBuffer_null_behaviour envW stWithIB
  have h2 := setBuffer_null_behaviour envW stNoDirty
  refine ⟨h1.1, ?_, ?_, h2.2.2 rfl⟩
  · rw [h1.2.1 9 rfl]
  · rw [h1.2.1 9 rfl]

end NzRenderer

namespace NzRenderer

variable {M : Type}

/-! ### Lemmas on the identity-keyed per-context maps -/

theorem lookupKey_some_mem (k : VAOKey) (m : VAOMap) (h : Nat)
    (hx : lookupKey k m = some h) : (k, h) ∈ m := by
  induction m with
  | nil => simp [lookupKey] at hx
  | cons e rest ih =>
      obtain ⟨k', h'⟩ := e
      by_cases he : k' = k
      · subst he
        simp [lookupKey] at hx
        subst hx
        exact List.mem_cons_self _ _
      · simp [lookupKey, he] at hx
        exact List.mem_cons_of_mem _ (ih hx)

theorem lookupCtx_some_mem (c : Nat) (cm : ContextMap) (m : VAOMap)
    (hx : lookupCtx c cm = some m) : (c, m) ∈ cm := by
  induction cm with
  | nil => simp [lookupCtx] at hx
  | cons e rest ih =>
      obtain ⟨c', m'⟩ := e
      by_cases he : c' = c
      · subst he
        simp [lookupCtx] at hx
        subst hx
        exact List.mem_cons_self _ _
      · simp [lookupCtx, he] at hx
        exact List.mem_cons_of_mem _ (ih hx)

theorem lookupCtx_setCtx_self (c : Nat) (m : VAOMap) (cm : ContextMap) :
    lookupCtx c (setCtx c m cm) = some m := by
  induction cm with
  | nil => simp [setCtx, lookupCtx]
  | cons e rest ih =>
      obtain ⟨c', m'⟩ := e
      by_cases he : c' = c
      · subst he; simp [setCtx, lookupCtx]
      · simp [setCtx, lookupCtx, he, ih]

theorem lookupKey_insert_self (k : VAOKey) (h : Nat) (m : VAOMap) :
    lookupKey k (insertKey k h m) = some h := by
  simp [insertKey, lookupKey]

theorem lookupKey_insert_other (k1 k2 : VAOKey) (h : Nat) (m : VAOMap) (hne : k1 ≠ k2) :
    lookupKey k2 (insertKey k1 h m) = lookupKey k2 m := by
  simp [insertKey, lookupKey, hne]

/-! ### C5: releasing a key resource evicts from every context -/

theorem evictEntries_mem (p : VAOKey → Bool) (ctx : Nat) (m : VAOMap) (k : VAOKey) (h : Nat)
    (hx : (k, h) ∈ (evictEntries (M := M) p ctx m).1) : p k = false := by
  induction m with
  | nil => simp [evictEntries] at hx
  | cons e rest ih =>
      obtain ⟨k', h'⟩ := e
      cases hp : p k' with
      | true =>
          simp only [evictEntries, hp, if_true] at hx
          exact ih hx
      | false =>
          simp only [evictEntries, hp, Bool.false_eq_true, if_false, List.mem_cons] at hx
          rcases hx with hk | hx
          · have : k = k' := congrArg Prod.fst hk
            rw [this]; exact hp
          · exact ih hx

theorem releaseScan_map (p : VAOKey → Bool) (cm : ContextMap) :
    (releaseScan (M := M) p cm).1
      = cm.map (fun e => (e.1, (evictEntries (M := M) p e.1 e.2).1)) := by
  induction cm with
  | nil => rfl
  | cons e rest ih =>
      obtain ⟨c, m⟩ := e
      simp only [releaseScan, List.map_cons]
      rw [ih]

theorem releaseScan_mem (p : VAOKey → Bool) (cm : ContextMap) (c : Nat) (m' : VAOMap)
    (hc : (c, m') ∈ (releaseScan (M := M) p cm).1) (k : VAOKey) (h : Nat)
    (hk : (k, h) ∈ m') : p k = false := by
  rw [releaseScan_map (M := M)] at hc
  rcases List.mem_map.mp hc with ⟨e, _, he⟩
  have hm : m' = (evictEntries (M := M) p e.1 e.2).1 := (congrArg Prod.snd he).symm
  exact evictEntries_mem (M := M) p e.1 e.2 k h (hm ▸ hk)

/-- C5: releasing any one of a cached entry's key resources (index buffer,
vertex buffer, base declaration or instancing declaration) removes every
entry keyed on it from the map of every graphics context — the handlers scan
all contexts, independent of which one is current — and a subsequent cache
lookup keyed on the released resource misses, so a fresh entry is built. -/
theorem release_evicts_everywhere (st : RendererState M) (vb ib d : Nat) :
    (∀ c m', (c, m') ∈ (onVertexBufferRelease vb st).1.vaos →
        ∀ k h, (k, h) ∈ m' → k.vb ≠ vb)
    ∧ (∀ c m', (c, m') ∈ (onIndexBufferRelease ib st).1.vaos →
        ∀ k h, (k, h) ∈ m' → k.ib ≠ some ib)
    ∧ (∀ c m', (c, m') ∈ (onVertexDeclarationRelease d st).1.vaos →
        ∀ k h, (k, h) ∈ m' → k.decl ≠ d ∧ k.inst ≠ some d)
    ∧ (∀ key ctx next, key.vb = vb →
        (vaoLookupOrCreate key ctx (onVertexBufferRelease vb st).1.vaos next).2.2.2 = true) := by
  refine ⟨?_, ?_, ?_, ?_⟩
  · intro c m' hc k h hk
    have := releaseScan_mem (M := M) (fun k => k.vb == vb) st.vaos c m' hc k h hk
    simpa using this
  · intro c m' hc k h hk
    have := releaseScan_mem (M := M) (fun k => k.ib == some ib) st.vaos c m' hc k h hk
    simpa using this
  · intro c m' hc k h hk
    have := releaseScan_mem (M := M) (fun k => k.decl == d || k.inst == some d)
      st.vaos c m' hc k h hk
    simp at this
    exact this
  · intro key ctx next hkey
    unfold vaoLookupOrCreate
    rcases hc : lookupCtx ctx (onVertexBufferRelease vb st).1.vaos with _ | m0
    · simp [hc, lookupKey]
    · rcases hl : lookupKey key m0 with _ | h0
      · simp [hc, hl]
      · exfalso
        have hmem := lookupKey_some_mem key m0 h0 hl
        have := releaseScan_mem (M := M) (fun k => k.vb == vb) st.vaos ctx m0
          (lookupCtx_some_mem ctx _ m0 hc) key h0 hmem
        simp [hkey] at this

/-- Concrete key for the cache witnesses (keyed on vertex buffer 5). -/
def keyA : VAOKey := ⟨none, 5, 2, none⟩

/-- A second concrete key, not keyed on vertex buffer 5. -/
def keyB : VAOKey := ⟨some 4, 6, 2, none⟩

/-- A concrete state whose caches hold `keyA` (in two contexts) and `keyB`. -/
def stV : RendererState Int :=
  { stInit with vaos := [(1, [(keyA, 1), (keyB, 2)]), (2, [(keyA, 3)])], nextVAO := 4 }

/-- Witness for C5: after releasing vertex buffer 5, looking `keyA` up again
in context 1 builds a fresh entry. -/
theorem release_evicts_everywhere_witness :
    keyA.vb = 5
    ∧ (vaoLookupOrCreate keyA 1 (onVertexBufferRelease 5 stV).1.vaos 4).2.2.2 = true :=
  ⟨rfl, (release_evicts_everywhere stV 5 0 0).2.2.2 keyA 1 4 rfl⟩

/-! ### C4: cache identity — equal keys share a handle, fresh keys get new ones -/

/-- Freshness invariant of the modelled handle supply: every handle stored
in any context map is below the counter. -/
def handlesFresh (vaos : ContextMap) (next : Nat) : Prop :=
  ∀ c m, (c, m) ∈ vaos → ∀ k h, (k, h) ∈ m → h < next

theorem vlc_hit (key : VAOKey) (ctx : Nat) (vaos : ContextMap) (next h : Nat)
    (hl : lookupKey key ((lookupCtx ctx vaos).getD []) = some h) :
    vaoLookupOrCreate key ctx vaos next =
      (setCtx ctx ((lookupCtx ctx vaos).getD []) vaos, h, next, false) := by
  unfold vaoLookupOrCreate
  rw [hl]

theorem vlc_miss (key : VAOKey) (ctx : Nat) (vaos : ContextMap) (next : Nat)
    (hl : lookupKey key ((lookupCtx ctx vaos).getD []) = none) :
    vaoLookupOrCreate key ctx vaos next =
      (setCtx ctx (insertKey key next ((lookupCtx ctx vaos).getD [])) vaos, next, next + 1,
       true) := by
  unfold vaoLookupOrCreate
  rw [hl]

/-- C4: within one context, looking the same key tuple up twice yields the
same backend handle, while a second lookup with a different (not yet cached)
tuple builds a fresh entry whose handle is distinct from the first one. -/
theorem vao_cache_identity (key key' : VAOKey) (ctx : Nat) (vaos : ContextMap) (next : Nat)
    (hfresh : handlesFresh vaos next) (hne : key' ≠ key)
    (habsent : lookupKey key' ((lookupCtx ctx vaos).getD []) = none) :
    ((vaoLookupOrCreate key ctx
        (vaoLookupOrCreate key ctx vaos next).1
        (vaoLookupOrCreate key ctx vaos next).2.2.1).2.1
      = (vaoLookupOrCreate key ctx vaos next).2.1)
    ∧ ((vaoLookupOrCreate key' ctx
        (vaoLookupOrCreate key ctx vaos next).1
        (vaoLookupOrCreate key ctx vaos next).2.2.1).2.2.2 = true)
    ∧ ((vaoLookupOrCreate key' ctx
        (vaoLookupOrCreate key ctx vaos next).1
        (vaoLookupOrCreate key ctx vaos next).2.2.1).2.1
      ≠ (vaoLookupOrCreate key ctx vaos next).2.1) := by
  rcases hl : lookupKey key ((lookupCtx ctx vaos).getD []) with _ | h0
  · -- first lookup misses: the fresh entry (key, next) is inserted
    have e1 := vlc_miss key ctx vaos next hl
    have hctx2 :
        lookupCtx ctx (setCtx ctx (insertKey key next ((lookupCtx ctx vaos).getD [])) vaos)
          = some (insertKey key next ((lookupCtx ctx vaos).getD [])) :=
      lookupCtx_setCtx_self _ _ _
    have hsame :
        lookupKey key ((lookupCtx ctx (setCtx ctx
          (insertKey key next ((lookupCtx ctx vaos).getD [])) vaos)).getD []) = some next := by
      rw [hctx2]
      exact lookupKey_insert_self key next _
    have hother :
        lookupKey key' ((lookupCtx ctx (setCtx ctx
          (insertKey key next ((lookupCtx ctx vaos).getD [])) vaos)).getD []) = none := by
      rw [hctx2]
      simp only [Option.getD_some]
      rw [lookupKey_insert_other key key' next _ (fun he => hne he.symm)]
      exact habsent
    have e2 := vlc_hit key ctx _ (next + 1) next hsame
    have e3 := vlc_miss key' ctx _ (next + 1) hother
    simp only [e1] at e2 e3 ⊢
    simp only [e2, e3]
    refine ⟨trivial, trivial, by simp⟩
  · -- first lookup hits an existing entry with handle h0
    have e1 := vlc_hit key ctx vaos next h0 hl
    have hctx2 :
        lookupCtx ctx (setCtx ctx ((lookupCtx ctx vaos).getD []) vaos)
          = some ((lookupCtx ctx vaos).getD []) :=
      lookupCtx_setCtx_self _ _ _
    have hsame :
        lookupKey key
          ((lookupCtx ctx (setCtx ctx ((lookupCtx ctx vaos).getD []) vaos)).getD [])
          = some h0 := by
      rw [hctx2]; exact hl
    have hother :
        lookupKey key'
          ((lookupCtx ctx (setCtx ctx ((lookupCtx ctx vaos).getD []) vaos)).getD [])
          = none := by
      rw [hctx2]; exact habsent
    have hlt : h0 < next := by
      rcases hc : lookupCtx ctx vaos with _ | m0
      · rw [hc] at hl; simp [lookupKey] at hl
      · rw [hc] at hl
        simp only [Option.getD_some] at hl
        exact hfresh ctx m0 (lookupCtx_some_mem ctx vaos m0 hc) key h0
          (lookupKey_some_mem key m0 h0 hl)
    have e2 := vlc_hit key ctx _ next h0 hsame
    have e3 := vlc_miss key' ctx _ next hother
    simp only [e1] at e2 e3 ⊢
    simp only [e2, e3]
    refine ⟨trivial, trivial, by simp; omega⟩

/-- Witness for C4 on an empty cache. -/
theorem vao_cache_identity_witness :
    ((vaoLookupOrCreate keyA 1
        (vaoLookupOrCreate keyA 1 ([] : ContextMap) 1).1
        (vaoLookupOrCreate keyA 1 ([] : ContextMap) 1).2.2.1).2.1
      = (vaoLookupOrCreate keyA 1 ([] : ContextMap) 1).2.1)
    ∧ ((vaoLookupOrCreate keyB 1
        (vaoLookupOrCreate keyA 1 ([] : ContextMap) 1).1
        (vaoLookupOrCreate keyA 1 ([] : ContextMap) 1).2.2.1).2.1
      ≠ (vaoLookupOrCreate keyA 1 ([] : ContextMap) 1).2.1) := by
  have h := vao_cache_identity keyA keyB 1 ([] : ContextMap) 1
    (by intro c m hm; simp at hm) (by decide) rfl
  exact ⟨h.1, h.2.2⟩

end NzRenderer

namespace NzRenderer

variable {M : Type}

/-! ### Command classifiers and phase-level lemmas -/

/-- The matrix slots for which a `SendMatrix` backend call appears in a
trace, in order. -/
def sentTags (cs : List (Cmd M)) : List MatrixType :=
  cs.filterMap (fun c => match c with | .sendMatrix _ t _ => some t | _ => none)

/-- Number of draw submissions in a trace. -/
def drawCount (cs : List (Cmd M)) : Nat := (cs.filter Cmd.isDraw).length

theorem sentTags_append (a b : List (Cmd M)) : sentTags (a ++ b) = sentTags a ++ sentTags b :=
  List.filterMap_append a b _

theorem drawCount_append (a b : List (Cmd M)) :
    drawCount (a ++ b) = drawCount a + drawCount b := by
  simp [drawCount, List.filter_append]

/-! Location preservation through `UpdateMatrix`. -/

theorem updateBase_location (t : MatrixType) (s : MatrixState M) (t' : MatrixType) :
    ((updateBase t s) t').location = (s t').location := by
  by_cases h : t' = t <;> simp [updateBase, setUnit, h]

theorem updateViewProj_location (ops : MatrixOps M) (s : MatrixState M) (t' : MatrixType) :
    ((updateViewProj ops s) t').location = (s t').location := by
  by_cases h : t' = MatrixType.ViewProj <;> simp [updateViewProj, setUnit, h]

theorem updateWorldView_location (ops : MatrixOps M) (s : MatrixState M) (t' : MatrixType) :
    ((updateWorldView ops s) t').location = (s t').location := by
  by_cases h : t' = MatrixType.WorldView <;> simp [updateWorldView, setUnit, h]

theorem updateWorldViewProj_location (ops : MatrixOps M) (s : MatrixState M) (t' : MatrixType) :
    ((updateWorldViewProj ops s) t').location = (s t').location := by
  unfold updateWorldViewProj
  split
  · by_cases h : t' = MatrixType.WorldViewProj <;> simp [setUnit, h]
  · by_cases h : t' = MatrixType.WorldViewProj <;>
      simp [setUnit, h, updateWorldView_location]

theorem ensureSource_location (ops : MatrixOps M) (src : MatrixType) (s : MatrixState M)
    (t' : MatrixType) : ((ensureSource ops src s) t').location = (s t').location := by
  unfold ensureSource
  split
  · rfl
  · cases src <;>
      simp [updateBase_location, updateViewProj_location, updateWorldView_location,
        updateWorldViewProj_location]

theorem updateInv_location (ops : MatrixOps M) (t src : MatrixType) (msg : String)
    (s : MatrixState M) (t' : MatrixType) :
    ((updateInv ops t src msg s).1 t').location = (s t').location := by
  unfold updateInv
  rcases hi : ops.inverse ((ensureSource ops src s) src).matrix with _ | m <;>
    simp only [hi] <;>
    by_cases h : t' = t <;>
    simp [setUnit, h, ensureSource_location]

theorem updateMatrix_location (ops : MatrixOps M) (t : MatrixType) (s : MatrixState M)
    (t' : MatrixType) : ((updateMatrix ops t s).1 t').location = (s t').location := by
  cases t <;>
    simp [updateMatrix, updateBase_location, updateViewProj_location,
      updateWorldView_location, updateWorldViewProj_location, updateInv_location]

theorem sendOne_location (ops : MatrixOps M) (t : MatrixType) (s : MatrixState M)
    (t' : MatrixType) : ((sendOne ops t s).1 t').location = (s t').location := by
  unfold sendOne
  split
  · split
    · rfl
    · simp [updateMatrix_location]
  · rfl

theorem sendLoop_location (ops : MatrixOps M) (l : List MatrixType) (s : MatrixState M)
    (t' : MatrixType) : ((sendLoop ops l s).1 t').location = (s t').location := by
  induction l generalizing s with
  | nil => rfl
  | cons t rest ih =>
      simp only [sendLoop]
      rw [ih, sendOne_location]

theorem sendOne_tags (ops : MatrixOps M) (t : MatrixType) (s : MatrixState M) :
    sentTags (sendOne ops t s).2.1 = if (s t).location ≠ -1 then [t] else [] := by
  unfold sendOne
  split <;> simp [sentTags]

theorem sendOne_no_draw (ops : MatrixOps M) (t : MatrixType) (s : MatrixState M) :
    drawCount (sendOne ops t s).2.1 = 0 := by
  unfold sendOne
  split <;> simp [drawCount, Cmd.isDraw]

theorem sendLoop_tags (ops : MatrixOps M) (l : List MatrixType) (s : MatrixState M) :
    sentTags (sendLoop ops l s).2.1 = l.filter (fun t => decide ((s t).location ≠ -1)) := by
  induction l generalizing s with
  | nil => rfl
  | cons t rest ih =>
      simp only [sendLoop, List.filter_cons]
      rw [sentTags_append, ih, sendOne_tags]
      have hrest : rest.filter (fun u => decide (((sendOne ops t s).1 u).location ≠ -1))
          = rest.filter (fun u => decide ((s u).location ≠ -1)) := by
        apply List.filter_congr
        intro u _
        rw [sendOne_location]
      rw [hrest]
      by_cases h : (s t).location ≠ -1 <;> simp [h]

theorem sendLoop_no_draw (ops : MatrixOps M) (l : List MatrixType) (s : MatrixState M) :
    drawCount (sendLoop ops l s).2.1 = 0 := by
  induction l generalizing s with
  | nil => rfl
  | cons t rest ih =>
      simp only [sendLoop]
      rw [drawCount_append, ih, sendOne_no_draw]

end NzRenderer

namespace NzRenderer

variable {M : Type}

/-! ### Per-phase preservation and effect lemmas -/

theorem flushUnit_eff (us : Bool) (units : List TexUnit) (i : Nat) :
    sentTags (flushUnit (M := M) us units i).2 = []
    ∧ drawCount (flushUnit (M := M) us units i).2 = 0 := by
  unfold flushUnit
  rcases h : units[i]? with _ | u <;> simp only [h]
  · exact ⟨rfl, rfl⟩
  · split
    · split <;> simp [sentTags, drawCount, Cmd.isDraw]
    · exact ⟨rfl, rfl⟩

theorem textureLoop_eff (us : Bool) (l : List Nat) (units : List TexUnit) :
    sentTags (textureLoop (M := M) us l units).2 = []
    ∧ drawCount (textureLoop (M := M) us l units).2 = 0 := by
  induction l generalizing units with
  | nil => exact ⟨rfl, rfl⟩
  | cons i rest ih =>
      simp only [textureLoop]
      constructor
      · rw [sentTags_append, (flushUnit_eff us units i).1, (ih _).1]; rfl
      · rw [drawCount_append, (flushUnit_eff us units i).2, (ih _).2]

theorem texturePhase_pres (st : RendererState M) :
    (texturePhase st).1.matrices = st.matrices
    ∧ (texturePhase st).1.vaos = st.vaos
    ∧ (texturePhase st).1.nextVAO = st.nextVAO
    ∧ (texturePhase st).1.currentVAO = st.currentVAO
    ∧ (texturePhase st).1.vertexBuffer = st.vertexBuffer
    ∧ (texturePhase st).1.indexBuffer = st.indexBuffer
    ∧ (texturePhase st).1.useVAO = st.useVAO
    ∧ (texturePhase st).1.useSamplerObjects = st.useSamplerObjects
    ∧ (texturePhase st).1.instancing = st.instancing
    ∧ (texturePhase st).1.instanceBufferDecl = st.instanceBufferDecl
    ∧ (texturePhase st).1.instanceBufferGLId = st.instanceBufferGLId
    ∧ (texturePhase st).1.instanceBufferCapacity = st.instanceBufferCapacity
    ∧ (texturePhase st).1.updateFlags.vao = st.updateFlags.vao
    ∧ (texturePhase st).1.updateFlags.matrices = st.updateFlags.matrices
    ∧ (texturePhase st).2.errors = []
    ∧ (texturePhase st).2.warnings = []
    ∧ sentTags (texturePhase st).2.cmds = []
    ∧ drawCount (texturePhase st).2.cmds = 0 := by
  unfold texturePhase
  split
  · simp [effCmds, (textureLoop_eff st.useSamplerObjects st.dirtyTextureUnits st.textureUnits).1,
      (textureLoop_eff st.useSamplerObjects st.dirtyTextureUnits st.textureUnits).2]
  · simp [Eff.nil, sentTags, drawCount]

theorem shaderPhase_pres (env : Env M) (sh : Nat) (st : RendererState M) :
    (shaderPhase env sh st).vaos = st.vaos
    ∧ (shaderPhase env sh st).nextVAO = st.nextVAO
    ∧ (shaderPhase env sh st).currentVAO = st.currentVAO
    ∧ (shaderPhase env sh st).vertexBuffer = st.vertexBuffer
    ∧ (shaderPhase env sh st).indexBuffer = st.indexBuffer
    ∧ (shaderPhase env sh st).useVAO = st.useVAO
    ∧ (shaderPhase env sh st).useSamplerObjects = st.useSamplerObjects
    ∧ (shaderPhase env sh st).instancing = st.instancing
    ∧ (shaderPhase env sh st).instanceBufferDecl = st.instanceBufferDecl
    ∧ (shaderPhase env sh st).instanceBufferGLId = st.instanceBufferGLId
    ∧ (shaderPhase env sh st).instanceBufferCapacity = st.instanceBufferCapacity
    ∧ (shaderPhase env sh st).textureUnits = st.textureUnits
    ∧ (shaderPhase env sh st).dirtyTextureUnits = st.dirtyTextureUnits
    ∧ (shaderPhase env sh st).updateFlags.vao = st.updateFlags.vao
    ∧ (shaderPhase env sh st).updateFlags.textures = st.updateFlags.textures := by
  unfold shaderPhase
  split <;> simp

theorem targetSizePhase_pres (env : Env M) (sh tg : Nat) (st : RendererState M) :
    (targetSizePhase env sh tg st).1.matrices = st.matrices
    ∧ (targetSizePhase env sh tg st).1.updateFlags = st.updateFlags
    ∧ (targetSizePhase env sh tg st).1.vaos = st.vaos
    ∧ (targetSizePhase env sh tg st).1.nextVAO = st.nextVAO
    ∧ (targetSizePhase env sh tg st).1.currentVAO = st.currentVAO
    ∧ (targetSizePhase env sh tg st).1.vertexBuffer = st.vertexBuffer
    ∧ (targetSizePhase env sh tg st).1.indexBuffer = st.indexBuffer
    ∧ (targetSizePhase env sh tg st).1.useVAO = st.useVAO
    ∧ (targetSizePhase env sh tg st).1.useSamplerObjects = st.useSamplerObjects
    ∧ (targetSizePhase env sh tg st).1.instancing = st.instancing
    ∧ (targetSizePhase env sh tg st).1.instanceBufferDecl = st.instanceBufferDecl
    ∧ (targetSizePhase env sh tg st).1.instanceBufferGLId = st.instanceBufferGLId
    ∧ (targetSizePhase env sh tg st).1.instanceBufferCapacity = st.instanceBufferCapacity
    ∧ (targetSizePhase env sh tg st).1.textureUnits = st.textureUnits
    ∧ (targetSizePhase env sh tg st).1.dirtyTextureUnits = st.dirtyTextureUnits
    ∧ (targetSizePhase env sh tg st).2.errors = []
    ∧ (targetSizePhase env sh tg st).2.warnings = []
    ∧ sentTags (targetSizePhase env sh tg st).2.cmds = []
    ∧ drawCount (targetSizePhase env sh tg st).2.cmds = 0 := by
  simp only [targetSizePhase]
  split
  · refine ⟨rfl, rfl, rfl, rfl, rfl, rfl, rfl, rfl, rfl, rfl, rfl, rfl, rfl, rfl, rfl,
      rfl, rfl, ?_, ?_⟩ <;>
      · split <;> split <;> simp [effCmds, sentTags, drawCount, Cmd.isDraw]
  · simp [Eff.nil, sentTags, drawCount]

theorem matrixPhase_pres (ops : MatrixOps M) (st : RendererState M) :
    (matrixPhase ops st).1.vaos = st.vaos
    ∧ (matrixPhase ops st).1.nextVAO = st.nextVAO
    ∧ (matrixPhase ops st).1.currentVAO = st.currentVAO
    ∧ (matrixPhase ops st).1.vertexBuffer = st.vertexBuffer
    ∧ (matrixPhase ops st).1.indexBuffer = st.indexBuffer
    ∧ (matrixPhase ops st).1.useVAO = st.useVAO
    ∧ (matrixPhase ops st).1.useSamplerObjects = st.useSamplerObjects
    ∧ (matrixPhase ops st).1.instancing = st.instancing
    ∧ (matrixPhase ops st).1.instanceBufferDecl = st.instanceBufferDecl
    ∧ (matrixPhase ops st).1.instanceBufferGLId = st.instanceBufferGLId
    ∧ (matrixPhase ops st).1.instanceBufferCapacity = st.instanceBufferCapacity
    ∧ (matrixPhase ops st).1.textureUnits = st.textureUnits
    ∧ (matrixPhase ops st).1.dirtyTextureUnits = st.dirtyTextureUnits
    ∧ (matrixPhase ops st).1.updateFlags.vao = st.updateFlags.vao
    ∧ (matrixPhase ops st).1.updateFlags.textures = st.updateFlags.textures
    ∧ (matrixPhase ops st).2.errors = []
    ∧ drawCount (matrixPhase ops st).2.cmds = 0 := by
  unfold matrixPhase
  split
  · simp [sendLoop_no_draw]
  · simp [Eff.nil, drawCount]

theorem matrixPhase_location (ops : MatrixOps M) (st : RendererState M) (t : MatrixType) :
    ((matrixPhase ops st).1.matrices t).location = (st.matrices t).location := by
  unfold matrixPhase
  split
  · simp [sendLoop_location]
  · rfl

theorem matrixPhase_tags_run (ops : MatrixOps M) (st : RendererState M)
    (h : st.updateFlags.matrices = true) :
    sentTags (matrixPhase ops st).2.cmds
      = matrixTypeList.filter (fun t => decide ((st.matrices t).location ≠ -1)) := by
  unfold matrixPhase
  rw [if_pos h]
  exact sendLoop_tags ops matrixTypeList st.matrices

end NzRenderer

namespace NzRenderer

variable {M : Type}

/-! ### Trace classifier simp pack -/

@[simp] theorem sentTags_nil : sentTags ([] : List (Cmd M)) = [] := rfl

@[simp] theorem sentTags_app (a b : List (Cmd M)) :
    sentTags (a ++ b) = sentTags a ++ sentTags b := sentTags_append a b

@[simp] theorem drawCount_nil : drawCount ([] : List (Cmd M)) = 0 := rfl

@[simp] theorem drawCount_app (a b : List (Cmd M)) :
    drawCount (a ++ b) = drawCount a + drawCount b := drawCount_append a b

@[simp] theorem sentTags_ensureTarget (t : Nat) (cs : List (Cmd M)) :
    sentTags (Cmd.ensureTarget t :: cs) = sentTags cs := rfl

@[simp] theorem sentTags_bindShader (s : Nat) (cs : List (Cmd M)) :
    sentTags (Cmd.bindShader s :: cs) = sentTags cs := rfl

@[simp] theorem sentTags_sendVector (l : Int) (u : ShaderUniform) (cs : List (Cmd M)) :
    sentTags (Cmd.sendVector l u :: cs) = sentTags cs := rfl

@[simp] theorem sentTags_sendMatrix (l : Int) (t : MatrixType) (v : M) (cs : List (Cmd M)) :
    sentTags (Cmd.sendMatrix l t v :: cs) = t :: sentTags cs := rfl

@[simp] theorem sentTags_bindSampler (u : Nat) (cs : List (Cmd M)) :
    sentTags (Cmd.bindSampler u :: cs) = sentTags cs := rfl

@[simp] theorem sentTags_applySampler (u : Nat) (cs : List (Cmd M)) :
    sentTags (Cmd.applySampler u :: cs) = sentTags cs := rfl

@[simp] theorem sentTags_genVertexArray (v : Nat) (cs : List (Cmd M)) :
    sentTags (Cmd.genVertexArray v :: cs) = sentTags cs := rfl

@[simp] theorem sentTags_bindVertexArray (v : Nat) (cs : List (Cmd M)) :
    sentTags (Cmd.bindVertexArray v :: cs) = sentTags cs := rfl

@[simp] theorem sentTags_deleteVertexArray (c v : Nat) (cs : List (Cmd M)) :
    sentTags (Cmd.deleteVertexArray c v :: cs) = sentTags cs := rfl

@[simp] theorem sentTags_bindBuffer (b : Nat) (cs : List (Cmd M)) :
    sentTags (Cmd.bindBuffer b :: cs) = sentTags cs := rfl

@[simp] theorem sentTags_bindIndexBuffer (b : Nat) (cs : List (Cmd M)) :
    sentTags (Cmd.bindIndexBuffer b :: cs) = sentTags cs := rfl

@[simp] theorem sentTags_enableAttrib (j : Nat) (cs : List (Cmd M)) :
    sentTags (Cmd.enableAttrib j :: cs) = sentTags cs := rfl

@[simp] theorem sentTags_disableAttrib (j : Nat) (cs : List (Cmd M)) :
    sentTags (Cmd.disableAttrib j :: cs) = sentTags cs := rfl

@[simp] theorem sentTags_attribPointer (j : Nat) (ty : ComponentType) (cs : List (Cmd M)) :
    sentTags (Cmd.attribPointer j ty :: cs) = sentTags cs := rfl

@[simp] theorem sentTags_attribDivisor (j : Nat) (cs : List (Cmd M)) :
    sentTags (Cmd.attribDivisor j :: cs) = sentTags cs := rfl

@[simp] theorem sentTags_bindTexture (u t : Nat) (cs : List (Cmd M)) :
    sentTags (Cmd.bindTexture u t :: cs) = sentTags cs := rfl

@[simp] theorem sentTags_applyStates (cs : List (Cmd M)) :
    sentTags (Cmd.applyStates :: cs) = sentTags cs := rfl

@[simp] theorem sentTags_drawArrays (m : PrimitiveMode) (f v : Nat) (cs : List (Cmd M)) :
    sentTags (Cmd.drawArrays m f v :: cs) = sentTags cs := rfl

@[simp] theorem sentTags_deactivateTarget (t : Nat) (cs : List (Cmd M)) :
    sentTags (Cmd.deactivateTarget t :: cs) = sentTags cs := rfl

@[simp] theorem sentTags_activateTarget (t : Nat) (cs : List (Cmd M)) :
    sentTags (Cmd.activateTarget t :: cs) = sentTags cs := rfl

@[simp] theorem drawCount_ensureTarget (t : Nat) (cs : List (Cmd M)) :
    drawCount (Cmd.ensureTarget t :: cs) = drawCount cs := rfl

@[simp] theorem drawCount_bindShader (s : Nat) (cs : List (Cmd M)) :
    drawCount (Cmd.bindShader s :: cs) = drawCount cs := rfl

@[simp] theorem drawCount_sendVector (l : Int) (u : ShaderUniform) (cs : List (Cmd M)) :
    drawCount (Cmd.sendVector l u :: cs) = drawCount cs := rfl

@[simp] theorem drawCount_sendMatrix (l : Int) (t : MatrixType) (v : M) (cs : List (Cmd M)) :
    drawCount (Cmd.sendMatrix l t v :: cs) = drawCount cs := rfl

@[simp] theorem drawCount_bindSampler (u : Nat) (cs : List (Cmd M)) :
    drawCount (Cmd.bindSampler u :: cs) = drawCount cs := rfl

@[simp] theorem drawCount_applySampler (u : Nat) (cs : List (Cmd M)) :
    drawCount (Cmd.applySampler u :: cs) = drawCount cs := rfl

@[simp] theorem drawCount_genVertexArray (v : Nat) (cs : List (Cmd M)) :
    drawCount (Cmd.genVertexArray v :: cs) = drawCount cs := rfl

@[simp] theorem drawCount_bindVertexArray (v : Nat) (cs : List (Cmd M)) :
    drawCount (Cmd.bindVertexArray v :: cs) = drawCount cs := rfl

@[simp] theorem drawCount_deleteVertexArray (c v : Nat) (cs : List (Cmd M)) :
    drawCount (Cmd.deleteVertexArray c v :: cs) = drawCount cs := rfl

@[simp] theorem drawCount_bindBuffer (b : Nat) (cs : List (Cmd M)) :
    drawCount (Cmd.bindBuffer b :: cs) = drawCount cs := rfl

@[simp] theorem drawCount_bindIndexBuffer (b : Nat) (cs : List (Cmd M)) :
    drawCount (Cmd.bindIndexBuffer b :: cs) = drawCount cs := rfl

@[simp] theorem drawCount_enableAttrib (j : Nat) (cs : List (Cmd M)) :
    drawCount (Cmd.enableAttrib j :: cs) = drawCount cs := rfl

@[simp] theorem drawCount_disableAttrib (j : Nat) (cs : List (Cmd M)) :
    drawCount (Cmd.disableAttrib j :: cs) = drawCount cs := rfl

@[simp] theorem drawCount_attribPointer (j : Nat) (ty : ComponentType) (cs : List (Cmd M)) :
    drawCount (Cmd.attribPointer j ty :: cs) = drawCount cs := rfl

@[simp] theorem drawCount_attribDivisor (j : Nat) (cs : List (Cmd M)) :
    drawCount (Cmd.attribDivisor j :: cs) = drawCount cs := rfl

@[simp] theorem drawCount_bindTexture (u t : Nat) (cs : List (Cmd M)) :
    drawCount (Cmd.bindTexture u t :: cs) = drawCount cs := rfl

@[simp] theorem drawCount_applyStates (cs : List (Cmd M)) :
    drawCount (Cmd.applyStates :: cs) = drawCount cs := rfl

@[simp] theorem drawCount_deactivateTarget (t : Nat) (cs : List (Cmd M)) :
    drawCount (Cmd.deactivateTarget t :: cs) = drawCount cs := rfl

@[simp] theorem drawCount_activateTarget (t : Nat) (cs : List (Cmd M)) :
    drawCount (Cmd.activateTarget t :: cs) = drawCount cs := rfl

@[simp] theorem drawCount_drawArrays (m : PrimitiveMode) (f v : Nat) (cs : List (Cmd M)) :
    drawCount (Cmd.drawArrays m f v :: cs) = drawCount cs + 1 := by
  simp [drawCount, List.filter_cons, Cmd.isDraw]

@[simp] theorem drawCount_drawArraysInstanced (m : PrimitiveMode) (f v n : Nat)
    (cs : List (Cmd M)) :
    drawCount (Cmd.drawArraysInstanced m f v n :: cs) = drawCount cs + 1 := by
  simp [drawCount, List.filter_cons, Cmd.isDraw]

end NzRenderer

namespace NzRenderer

variable {M : Type}

/-! ### Effects of the vertex-layout build -/

theorem buildComponents_eff (env : Env M) (declId : Nat) (isInst : Bool) (l : List Nat) :
    sentTags (buildComponents env declId isInst l).1 = []
    ∧ drawCount (buildComponents env declId isInst l).1 = 0 := by
  induction l with
  | nil => exact ⟨rfl, rfl⟩
  | cons j rest ih =>
      simp only [buildComponents]
      rcases h : env.declComponent declId j with _ | ty <;> simp only [h]
      · constructor
        · rw [sentTags_disableAttrib, ih.1]
        · rw [drawCount_disableAttrib, ih.2]
      · split
        · exact ⟨rfl, rfl⟩
        · cases isInst <;>
            constructor <;>
              simp [ih.1, ih.2]

theorem buildVAO_eff (env : Env M) (vb : Nat) (instancing : Bool) (instDecl instGL : Nat)
    (ib : Option Nat) :
    sentTags (buildVAO env vb instancing instDecl instGL ib).1 = []
    ∧ drawCount (buildVAO env vb instancing instDecl instGL ib).1 = 0 := by
  have h0 := buildComponents_eff env (env.vbDecl vb) false vertexDataComponents
  have h1 := buildComponents_eff env instDecl true instanceDataComponents
  have hdis1 : sentTags (instanceDataComponents.map (Cmd.disableAttrib (M := M))) = [] := rfl
  have hdis2 : drawCount (instanceDataComponents.map (Cmd.disableAttrib (M := M))) = 0 := rfl
  simp only [buildVAO]
  rcases ib with _ | b <;> cases instancing <;>
    simp [h0.1, h0.2, h1.1, h1.2, hdis1, hdis2]

/-! ### Characterization of the vertex-layout phase -/

theorem vaoPhase_skip (env : Env M) (ctx : Nat) (st : RendererState M)
    (h : st.updateFlags.vao = false) :
    vaoPhase env ctx st = (true, st, Eff.nil) := by
  unfold vaoPhase
  simp [h]

theorem vaoPhase_noVB (env : Env M) (ctx : Nat) (st : RendererState M)
    (h : st.updateFlags.vao = true) (hvb : st.vertexBuffer = none) :
    vaoPhase env ctx st = (false, st, effErr "No vertex buffer") := by
  unfold vaoPhase
  simp [h, hvb]

theorem vaoPhase_fallback (env : Env M) (ctx : Nat) (st : RendererState M) (vb : Nat)
    (h : st.updateFlags.vao = true) (hvb : st.vertexBuffer = some vb)
    (hu : st.useVAO = false) :
    vaoPhase env ctx st =
      (true, st,
       ⟨(buildVAO env vb st.instancing st.instanceBufferDecl st.instanceBufferGLId
           st.indexBuffer).1,
        (buildVAO env vb st.instancing st.instanceBufferDecl st.instanceBufferGLId
           st.indexBuffer).2.1, []⟩) := by
  unfold vaoPhase
  simp [h, hvb, hu]

theorem vaoPhase_hit (env : Env M) (ctx : Nat) (st : RendererState M) (vb hdl : Nat)
    (h : st.updateFlags.vao = true) (hvb : st.vertexBuffer = some vb)
    (hu : st.useVAO = true)
    (hl : lookupKey (mkKey env vb st) ((lookupCtx ctx st.vaos).getD []) = some hdl) :
    vaoPhase env ctx st =
      (true,
       { st with
           vaos := setCtx ctx ((lookupCtx ctx st.vaos).getD []) st.vaos
           currentVAO := hdl
           updateFlags := { st.updateFlags with vao := false } },
       Eff.nil) := by
  unfold vaoPhase
  simp only [h, hvb, hu, if_true]
  rw [vlc_hit _ _ _ st.nextVAO hdl hl]
  simp

theorem vaoPhase_missOk (env : Env M) (ctx : Nat) (st : RendererState M) (vb : Nat)
    (h : st.updateFlags.vao = true) (hvb : st.vertexBuffer = some vb)
    (hu : st.useVAO = true)
    (hl : lookupKey (mkKey env vb st) ((lookupCtx ctx st.vaos).getD []) = none)
    (hb : (buildVAO env vb st.instancing st.instanceBufferDecl st.instanceBufferGLId
        st.indexBuffer).2.2 = false) :
    vaoPhase env ctx st =
      (true,
       { st with
           vaos := setCtx ctx
             (insertKey (mkKey env vb st) st.nextVAO ((lookupCtx ctx st.vaos).getD [])) st.vaos
           currentVAO := st.nextVAO
           nextVAO := st.nextVAO + 1
           updateFlags := { st.updateFlags with vao := false } },
       ⟨[Cmd.genVertexArray st.nextVAO, Cmd.bindVertexArray st.nextVAO]
          ++ (buildVAO env vb st.instancing st.instanceBufferDecl st.instanceBufferGLId
               st.indexBuffer).1 ++ [Cmd.bindVertexArray 0],
        (buildVAO env vb st.instancing st.instanceBufferDecl st.instanceBufferGLId
          st.indexBuffer).2.1, []⟩) := by
  unfold vaoPhase
  simp only [h, hvb, hu, if_true]
  rw [vlc_miss _ _ _ _ hl]
  simp [hb]

theorem vaoPhase_missFail (env : Env M) (ctx : Nat) (st : RendererState M) (vb : Nat)
    (h : st.updateFlags.vao = true) (hvb : st.vertexBuffer = some vb)
    (hu : st.useVAO = true)
    (hl : lookupKey (mkKey env vb st) ((lookupCtx ctx st.vaos).getD []) = none)
    (hb : (buildVAO env vb st.instancing st.instanceBufferDecl st.instanceBufferGLId
        st.indexBuffer).2.2 = true) :
    vaoPhase env ctx st =
      (true,
       { st with
           vaos := setCtx ctx
             (setKeyHandle (mkKey env vb st) 0
               (insertKey (mkKey env vb st) st.nextVAO ((lookupCtx ctx st.vaos).getD [])))
             (setCtx ctx
               (insertKey (mkKey env vb st) st.nextVAO ((lookupCtx ctx st.vaos).getD []))
               st.vaos)
           currentVAO := 0
           nextVAO := st.nextVAO + 1
           updateFlags := { st.updateFlags with vao := false } },
       ⟨[Cmd.genVertexArray st.nextVAO, Cmd.bindVertexArray st.nextVAO]
          ++ (buildVAO env vb st.instancing st.instanceBufferDecl st.instanceBufferGLId
               st.indexBuffer).1 ++ [Cmd.deleteVertexArray ctx st.nextVAO],
        (buildVAO env vb st.instancing st.instanceBufferDecl st.instanceBufferGLId
          st.indexBuffer).2.1, []⟩) := by
  unfold vaoPhase
  simp only [h, hvb, hu, if_true]
  rw [vlc_miss _ _ _ _ hl]
  simp [hb, lookupCtx_setCtx_self]

end NzRenderer

namespace NzRenderer

variable {M : Type}

@[simp] theorem Eff_seq_cmds (a b : Eff M) : (a.seq b).cmds = a.cmds ++ b.cmds := rfl

@[simp] theorem Eff_seq_errors (a b : Eff M) : (a.seq b).errors = a.errors ++ b.errors := rfl

@[simp] theorem Eff_seq_warnings (a b : Eff M) : (a.seq b).warnings = a.warnings ++ b.warnings := rfl

@[simp] theorem Eff_nil_cmds : (Eff.nil : Eff M).cmds = [] := rfl

@[simp] theorem Eff_nil_errors : (Eff.nil : Eff M).errors = [] := rfl

@[simp] theorem Eff_nil_warnings : (Eff.nil : Eff M).warnings = [] := rfl

@[simp] theorem effCmds_cmds (cs : List (Cmd M)) : (effCmds cs).cmds = cs := rfl

@[simp] theorem effCmds_errors (cs : List (Cmd M)) : (effCmds cs).errors = [] := rfl

@[simp] theorem effCmds_warnings (cs : List (Cmd M)) : (effCmds cs).warnings = [] := rfl

@[simp] theorem effErr_cmds (s : String) : (effErr (M := M) s).cmds = [] := rfl

@[simp] theorem effErr_errors (s : String) : (effErr (M := M) s).errors = [s] := rfl

@[simp] theorem effErr_warnings (s : String) : (effErr (M := M) s).warnings = [] := rfl

theorem UpdateFlags_any_of_matrices (f : UpdateFlags) (h : f.matrices = true) :
    f.any = true := by
  simp [UpdateFlags.any, h]

theorem textureRebindLoop_eff (i : Nat) (units : List TexUnit) :
    sentTags (textureRebindLoop (M := M) i units) = []
    ∧ drawCount (textureRebindLoop (M := M) i units) = 0 := by
  induction units generalizing i with
  | nil => exact ⟨rfl, rfl⟩
  | cons u rest ih =>
      rcases h : u.texture with _ | t <;> simp only [textureRebindLoop, h]
      · exact ih (i + 1)
      · simp [(ih (i + 1)).1, (ih (i + 1)).2]

theorem textureRebindCmds_eff (units : List TexUnit) :
    sentTags (textureRebindCmds (M := M) units) = []
    ∧ drawCount (textureRebindCmds (M := M) units) = 0 :=
  textureRebindLoop_eff 0 units

/-- Aggregate effect of the vertex-layout phase: it never sends matrices,
never draws, and leaves the matrix cache, texture units and capability
flags untouched. -/
theorem vaoPhase_eff (env : Env M) (ctx : Nat) (st : RendererState M) :
    sentTags (vaoPhase env ctx st).2.2.cmds = []
    ∧ drawCount (vaoPhase env ctx st).2.2.cmds = 0
    ∧ (vaoPhase env ctx st).2.1.matrices = st.matrices
    ∧ (vaoPhase env ctx st).2.1.textureUnits = st.textureUnits
    ∧ (vaoPhase env ctx st).2.1.useVAO = st.useVAO := by
  cases hf : st.updateFlags.vao
  · rw [vaoPhase_skip env ctx st hf]; simp
  · rcases hvb : st.vertexBuffer with _ | vb
    · rw [vaoPhase_noVB env ctx st hf hvb]; simp
    · cases hu : st.useVAO
      · rw [vaoPhase_fallback env ctx st vb hf hvb hu]
        have hb := buildVAO_eff env vb st.instancing st.instanceBufferDecl
          st.instanceBufferGLId st.indexBuffer
        simp [hb.1, hb.2, hu]
      · rcases hl : lookupKey (mkKey env vb st) ((lookupCtx ctx st.vaos).getD [])
          with _ | hdl
        · cases hbf : (buildVAO env vb st.instancing st.instanceBufferDecl
              st.instanceBufferGLId st.indexBuffer).2.2
          · rw [vaoPhase_missOk env ctx st vb hf hvb hu hl hbf]
            have hb := buildVAO_eff env vb st.instancing st.instanceBufferDecl
              st.instanceBufferGLId st.indexBuffer
            simp [hb.1, hb.2, hu]
          · rw [vaoPhase_missFail env ctx st vb hf hvb hu hl hbf]
            have hb := buildVAO_eff env vb st.instancing st.instanceBufferDecl
              st.instanceBufferGLId st.indexBuffer
            simp [hb.1, hb.2, hu]
        · rw [vaoPhase_hit env ctx st vb hdl hf hvb hu hl]
          simp [hu]

end NzRenderer

namespace NzRenderer

variable {M : Type}

/-- `EnsureStateUpdate` with the preconditions met and at least one dirty
bit raised, written as the composition of its phases. -/
theorem ensure_run (env : Env M) (st : RendererState M) (ctx sh tg : Nat)
    (hctx : st.currentContext = some ctx) (hsh : st.shader = some sh)
    (htg : st.target = some tg)
    (hany : (targetSizePhase env sh tg (shaderPhase env sh st)).1.updateFlags.any = true) :
    ensureStateUpdate env st =
      (let p2 := targetSizePhase env sh tg (shaderPhase env sh st)
       let pa := texturePhase p2.1
       let pb := matrixPhase env.ops pa.1
       let pc := vaoPhase env ctx pb.1
       let eAll := ((effCmds [Cmd.ensureTarget tg, Cmd.bindShader sh]).seq p2.2).seq
         ((pa.2.seq pb.2).seq pc.2.2)
       if !pc.1 then (false, pc.2.1, eAll)
       else if pc.2.1.useVAO && pc.2.1.currentVAO == 0 then
         (false, pc.2.1, eAll.seq (effErr "Failed to create VAO"))
       else
         (true, pc.2.1,
          eAll.seq (effCmds
            ((if pc.2.1.useVAO then [Cmd.bindVertexArray pc.2.1.currentVAO] else [])
              ++ textureRebindCmds pc.2.1.textureUnits ++ [Cmd.applyStates])))) := by
  unfold ensureStateUpdate
  rw [hctx, hsh, htg]
  simp only [hany, if_true]

/-- C9: when the Shader dirty bit is raised (the bound shader changed since
the last reconciliation), the next reconciliation re-resolves every matrix
slot's uniform location against the new program, and the `SendMatrix` calls
it issues are exactly the slots whose resolved location is present
(not `-1`) — every matrix the program references, none it does not. -/
theorem shader_switch_resend (env : Env M) (st : RendererState M) (ctx sh tg : Nat)
    (hctx : st.currentContext = some ctx) (hsh : st.shader = some sh)
    (htg : st.target = some tg) (hdirty : st.updateFlags.shader = true) :
    (∀ t, ((ensureStateUpdate env st).2.1.matrices t).location
        = env.uniformLoc sh (matrixUniform t))
    ∧ sentTags (ensureStateUpdate env st).2.2.cmds
        = matrixTypeList.filter (fun t => decide (env.uniformLoc sh (matrixUniform t) ≠ -1)) := by
  have hm1 : ∀ t, ((shaderPhase env sh st).matrices t).location
      = env.uniformLoc sh (matrixUniform t) := by
    intro t
    unfold shaderPhase
    rw [hdirty]
    simp [resolveLocations]
  have hf1 : (shaderPhase env sh st).updateFlags.matrices = true := by
    unfold shaderPhase
    rw [hdirty]
    simp
  have hany : (targetSizePhase env sh tg (shaderPhase env sh st)).1.updateFlags.any = true :=
    UpdateFlags_any_of_matrices _
      (by rw [(targetSizePhase_pres env sh tg _).2.1]; exact hf1)
  obtain ⟨t1, t2, -, -, -, -, -, -, -, -, -, -, -, -, -, -, -, t18, -⟩ :=
    targetSizePhase_pres env sh tg (shaderPhase env sh st)
  obtain ⟨x1, -, -, -, -, -, -, -, -, -, -, -, -, x14, -, -, x17, -⟩ :=
    texturePhase_pres (targetSizePhase env sh tg (shaderPhase env sh st)).1
  have hfm : (texturePhase (targetSizePhase env sh tg (shaderPhase env sh st)).1).1.updateFlags.matrices
      = true := by
    rw [x14, t2]; exact hf1
  have hlocs : ∀ t,
      ((texturePhase (targetSizePhase env sh tg (shaderPhase env sh st)).1).1.matrices t).location
        = env.uniformLoc sh (matrixUniform t) := by
    intro t; rw [x1, t1]; exact hm1 t
  have htags : sentTags (matrixPhase env.ops
        (texturePhase (targetSizePhase env sh tg (shaderPhase env sh st)).1).1).2.cmds
      = matrixTypeList.filter (fun t => decide (env.uniformLoc sh (matrixUniform t) ≠ -1)) := by
    rw [matrixPhase_tags_run _ _ hfm]
    apply List.filter_congr
    intro t _
    rw [hlocs t]
  have hloc2 : ∀ t, ((matrixPhase env.ops
        (texturePhase (targetSizePhase env sh tg (shaderPhase env sh st)).1).1).1.matrices t).location
      = env.uniformLoc sh (matrixUniform t) := by
    intro t; rw [matrixPhase_location]; exact hlocs t
  obtain ⟨v1, -, v3, -, -⟩ := vaoPhase_eff env ctx (matrixPhase env.ops
    (texturePhase (targetSizePhase env sh tg (shaderPhase env sh st)).1).1).1
  have hloc3 : ∀ t, (((vaoPhase env ctx (matrixPhase env.ops
        (texturePhase (targetSizePhase env sh tg (shaderPhase env sh st)).1).1).1).2.1.matrices t).location
      = env.uniformLoc sh (matrixUniform t)) := by
    intro t; rw [v3]; exact hloc2 t
  rw [ensure_run env st ctx sh tg hctx hsh htg hany]
  simp only []
  split
  · exact ⟨hloc3, by simp [t18, x17, htags, v1]⟩
  · split
    · exact ⟨hloc3, by simp [t18, x17, htags, v1]⟩
    · refine ⟨hloc3, ?_⟩
      have hrb := textureRebindCmds_eff (M := M) ((vaoPhase env ctx (matrixPhase env.ops
        (texturePhase (targetSizePhase env sh tg (shaderPhase env sh st)).1).1).1).2.1.textureUnits)
      split <;> simp [t18, x17, htags, v1, hrb.1]

end NzRenderer

namespace NzRenderer

variable {M : Type}

/-- Concrete environment for the C9 witness: the program references only the
View and Projection matrices. -/
def envW9 : Env Int :=
  { envW with uniformLoc := fun _ u =>
      match u with
      | .ViewMatrix => 3
      | .ProjMatrix => 5
      | _ => -1 }

/-- Concrete state for the C9 witness: shader and target bound, Shader bit
raised (as `Initialize` and `SetShader` leave it). -/
def stC9w : RendererState Int := { stInit with shader := some 1, target := some 2 }

/-- Witness for C9 at a concrete program exposing exactly View and Projection. -/
theorem shader_switch_resend_witness :
    ((ensureStateUpdate envW9 stC9w).2.1.matrices MatrixType.View).location = 3
    ∧ sentTags (ensureStateUpdate envW9 stC9w).2.2.cmds
        = [MatrixType.Projection, MatrixType.View] := by
  have h := shader_switch_resend envW9 stC9w 7 1 2 rfl rfl rfl rfl
  constructor
  · rw [h.1 MatrixType.View]; decide
  · rw [h.2]; decide

theorem UpdateFlags_any_of_vao (f : UpdateFlags) (h : f.vao = true) : f.any = true := by
  simp [UpdateFlags.any, h]

theorem mkKey_congr (env : Env M) (vb : Nat) (st st' : RendererState M)
    (h1 : st'.indexBuffer = st.indexBuffer) (h2 : st'.instancing = st.instancing)
    (h3 : st'.instanceBufferDecl = st.instanceBufferDecl) :
    mkKey env vb st' = mkKey env vb st := by
  unfold mkKey
  rw [h1, h2, h3]

/-- The fields the vertex-layout phase depends on are unchanged by the three
phases that precede it. -/
theorem preVAO_pres (env : Env M) (sh tg : Nat) (st : RendererState M) :
    (matrixPhase env.ops (texturePhase
        (targetSizePhase env sh tg (shaderPhase env sh st)).1).1).1.vaos = st.vaos
    ∧ (matrixPhase env.ops (texturePhase
        (targetSizePhase env sh tg (shaderPhase env sh st)).1).1).1.nextVAO = st.nextVAO
    ∧ (matrixPhase env.ops (texturePhase
        (targetSizePhase env sh tg (shaderPhase env sh st)).1).1).1.vertexBuffer
        = st.vertexBuffer
    ∧ (matrixPhase env.ops (texturePhase
        (targetSizePhase env sh tg (shaderPhase env sh st)).1).1).1.indexBuffer = st.indexBuffer
    ∧ (matrixPhase env.ops (texturePhase
        (targetSizePhase env sh tg (shaderPhase env sh st)).1).1).1.useVAO = st.useVAO
    ∧ (matrixPhase env.ops (texturePhase
        (targetSizePhase env sh tg (shaderPhase env sh st)).1).1).1.instancing = st.instancing
    ∧ (matrixPhase env.ops (texturePhase
        (targetSizePhase env sh tg (shaderPhase env sh st)).1).1).1.instanceBufferDecl
        = st.instanceBufferDecl
    ∧ (matrixPhase env.ops (texturePhase
        (targetSizePhase env sh tg (shaderPhase env sh st)).1).1).1.instanceBufferGLId
        = st.instanceBufferGLId
    ∧ (matrixPhase env.ops (texturePhase
        (targetSizePhase env sh tg (shaderPhase env sh st)).1).1).1.updateFlags.vao
        = st.updateFlags.vao := by
  obtain ⟨s1, s2, -, s4, s5, s6, -, s8, s9, s10, -, -, -, s14, -⟩ := shaderPhase_pres env sh st
  obtain ⟨-, t2, t3, t4, -, t6, t7, t8, -, t10, t11, t12, -, -, -, -, -, -, -⟩ :=
    targetSizePhase_pres env sh tg (shaderPhase env sh st)
  obtain ⟨-, x2, x3, -, x5, x6, x7, -, x9, x10, x11, -, x13, -, -, -, -, -⟩ :=
    texturePhase_pres (targetSizePhase env sh tg (shaderPhase env sh st)).1
  obtain ⟨m1, m2, -, m4, m5, m6, -, m8, m9, m10, -, -, -, m14, -, -, -⟩ :=
    matrixPhase_pres env.ops
      (texturePhase (targetSizePhase env sh tg (shaderPhase env sh st)).1).1
  refine ⟨?_, ?_, ?_, ?_, ?_, ?_, ?_, ?_, ?_⟩
  · rw [m1, x2, t3, s1]
  · rw [m2, x3, t4, s2]
  · rw [m4, x5, t6, s4]
  · rw [m5, x6, t7, s5]
  · rw [m6, x7, t8, s6]
  · rw [m8, x9, t10, s8]
  · rw [m9, x10, t11, s9]
  · rw [m10, x11, t12, s10]
  · rw [m14, x13]
    rw [show (targetSizePhase env sh tg (shaderPhase env sh st)).1.updateFlags
        = (shaderPhase env sh st).updateFlags from
      (targetSizePhase_pres env sh tg (shaderPhase env sh st)).2.1]
    exact s14

end NzRenderer

namespace NzRenderer

variable {M : Type}

theorem setKeyHandle_insert_self (k : VAOKey) (h h' : Nat) (m : VAOMap) :
    setKeyHandle k h (insertKey k h' m) = (k, h) :: m := by
  simp [setKeyHandle, insertKey]

/-- Concrete environment whose declaration 0 enables one `Quaternion`
component (unsupported by the backend). -/
def envBad : Env Int :=
  { envW with declComponent := fun _ j => if j = 0 then some .Quaternion else none }

/-- Concrete state ready to draw: shader, target and vertex buffer bound. -/
def stC6 : RendererState Int :=
  { stInit with shader := some 1, target := some 2, vertexBuffer := some 3 }

/-- C6 counterexample: the claim says the partially built cache entry is
evicted, so that no entry for the key remains; evaluating the reconciliation
on a declaration with an unsupported component type shows the build aborts
(reconciliation fails) but the entry for the key `(none, 3, 0, none)`
remains in context 7's map, with its handle zeroed. -/
theorem ensure_failed_build_entry_remains :
    (ensureStateUpdate envBad stC6).1 = false
    ∧ lookupKey ⟨none, 3, 0, none⟩
        ((lookupCtx 7 (ensureStateUpdate envBad stC6).2.1.vaos).getD []) = some 0 := by
  exact ⟨rfl, rfl⟩

/-- C6 (amended): if, while building a new cache entry, an enabled attribute
has an unsupported component type, the build is aborted with a reported
error, the backend object is deleted, and the partially built entry stays in
the per-context map with its handle set to the null handle 0 (poisoning the
key), so the reconciliation fails. -/
theorem ensure_unsupported_poisons_entry (env : Env M) (st : RendererState M)
    (ctx sh tg vb : Nat)
    (hctx : st.currentContext = some ctx) (hsh : st.shader = some sh)
    (htg : st.target = some tg)
    (hvao : st.updateFlags.vao = true) (hu : st.useVAO = true)
    (hvb : st.vertexBuffer = some vb)
    (hl : lookupKey (mkKey env vb st) ((lookupCtx ctx st.vaos).getD []) = none)
    (hb : (buildVAO env vb st.instancing st.instanceBufferDecl st.instanceBufferGLId
        st.indexBuffer).2.2 = true) :
    (ensureStateUpdate env st).1 = false
    ∧ lookupKey (mkKey env vb st)
        ((lookupCtx ctx (ensureStateUpdate env st).2.1.vaos).getD []) = some 0
    ∧ Cmd.deleteVertexArray ctx st.nextVAO ∈ (ensureStateUpdate env st).2.2.cmds
    ∧ (ensureStateUpdate env st).2.2.errors ≠ [] := by
  obtain ⟨p1, p2, p3, p4, p5, p6, p7, p8, p9⟩ := preVAO_pres env sh tg st
  obtain ⟨-, -, -, -, -, -, -, -, -, -, -, -, -, s14, -⟩ := shaderPhase_pres env sh st
  have hany : (targetSizePhase env sh tg (shaderPhase env sh st)).1.updateFlags.any = true := by
    apply UpdateFlags_any_of_vao
    rw [(targetSizePhase_pres env sh tg (shaderPhase env sh st)).2.1, s14]
    exact hvao
  have hkey : mkKey env vb (matrixPhase env.ops (texturePhase
      (targetSizePhase env sh tg (shaderPhase env sh st)).1).1).1 = mkKey env vb st :=
    mkKey_congr env vb st _ p4 p6 p7
  have hft : (matrixPhase env.ops (texturePhase
      (targetSizePhase env sh tg (shaderPhase env sh st)).1).1).1.updateFlags.vao = true := by
    rw [p9]; exact hvao
  have hvbt : (matrixPhase env.ops (texturePhase
      (targetSizePhase env sh tg (shaderPhase env sh st)).1).1).1.vertexBuffer = some vb := by
    rw [p3]; exact hvb
  have hut : (matrixPhase env.ops (texturePhase
      (targetSizePhase env sh tg (shaderPhase env sh st)).1).1).1.useVAO = true := by
    rw [p5]; exact hu
  have hlt : lookupKey (mkKey env vb (matrixPhase env.ops (texturePhase
        (targetSizePhase env sh tg (shaderPhase env sh st)).1).1).1)
      ((lookupCtx ctx (matrixPhase env.ops (texturePhase
        (targetSizePhase env sh tg (shaderPhase env sh st)).1).1).1.vaos).getD []) = none := by
    rw [hkey, p1]; exact hl
  have hbt : (buildVAO env vb
      (matrixPhase env.ops (texturePhase
        (targetSizePhase env sh tg (shaderPhase env sh st)).1).1).1.instancing
      (matrixPhase env.ops (texturePhase
        (targetSizePhase env sh tg (shaderPhase env sh st)).1).1).1.instanceBufferDecl
      (matrixPhase env.ops (texturePhase
        (targetSizePhase env sh tg (shaderPhase env sh st)).1).1).1.instanceBufferGLId
      (matrixPhase env.ops (texturePhase
        (targetSizePhase env sh tg (shaderPhase env sh st)).1).1).1.indexBuffer).2.2 = true := by
    rw [p6, p7, p8, p4]; exact hb
  have hvp := vaoPhase_missFail env ctx (matrixPhase env.ops (texturePhase
    (targetSizePhase env sh tg (shaderPhase env sh st)).1).1).1 vb hft hvbt hut hlt hbt
  rw [ensure_run env st ctx sh tg hctx hsh htg hany]
  simp only [hvp, hkey, p1, p2, p5, hu, Bool.not_true, Bool.false_eq_true, if_false]
  refine ⟨?_, ?_, ?_, ?_⟩
  · simp
  · simp [lookupCtx_setCtx_self, setKeyHandle_insert_self, lookupKey]
  · simp
  · simp

end NzRenderer

namespace NzRenderer

variable {M : Type}

theorem buildComponents_ok_errors (env : Env M) (declId : Nat) (isInst : Bool) (l : List Nat)
    (h : (buildComponents env declId isInst l).2.2 = false) :
    (buildComponents env declId isInst l).2.1 = [] := by
  induction l with
  | nil => rfl
  | cons j rest ih =>
      simp only [buildComponents] at h ⊢
      rcases hc : env.declComponent declId j with _ | ty <;> simp only [hc] at h ⊢
      · exact ih h
      · rcases hs : isComponentTypeSupported env ty with _ | _ <;> simp [hs] at h ⊢
        · exact ih h

theorem buildVAO_ok_errors (env : Env M) (vb : Nat) (instancing : Bool)
    (instDecl instGL : Nat) (ib : Option Nat)
    (h : (buildVAO env vb instancing instDecl instGL ib).2.2 = false) :
    (buildVAO env vb instancing instDecl instGL ib).2.1 = [] := by
  simp only [buildVAO] at h ⊢
  rcases hib : ib with _ | b <;> cases hinst : instancing <;> simp [hinst] at h ⊢ <;>
    first
      | exact buildComponents_ok_errors env (env.vbDecl vb) false vertexDataComponents h
      | · constructor
          · exact buildComponents_ok_errors env (env.vbDecl vb) false vertexDataComponents h.1
          · exact buildComponents_ok_errors env instDecl true instanceDataComponents h.2

end NzRenderer

namespace NzRenderer

variable {M : Type}

/-- The tracked state right before the draw in the C7 scenario:
`Initialize` followed by binding target `T`, shader `S` and vertex buffer
`V` (backend with VAO support). -/
def scnState (ident : M) (cap useSamp : Bool)
    (maxTU instCap instDecl instGL ctx T S V : Nat) : RendererState M :=
  { initState ident cap true useSamp maxTU instCap instDecl instGL ctx with
      shader := some S, target := some T, vertexBuffer := some V }

theorem scenario_ensure (env : Env M) (ident : M) (cap useSamp : Bool)
    (maxTU instCap instDecl instGL ctx T S V : Nat)
    (hbuild : (buildVAO env V false instDecl instGL none).2.2 = false) :
    (ensureStateUpdate env
        (scnState ident cap useSamp maxTU instCap instDecl instGL ctx T S V)).1 = true
    ∧ drawCount (ensureStateUpdate env
        (scnState ident cap useSamp maxTU instCap instDecl instGL ctx T S V)).2.2.cmds = 0
    ∧ (ensureStateUpdate env
        (scnState ident cap useSamp maxTU instCap instDecl instGL ctx T S V)).2.2.errors = []
    ∧ (ensureStateUpdate env
        (scnState ident cap useSamp maxTU instCap instDecl instGL ctx T S V)).2.1.useVAO
        = true := by
  have hctx : (scnState (M := M) ident cap useSamp maxTU instCap instDecl instGL
      ctx T S V).currentContext = some ctx := rfl
  have hsh : (scnState (M := M) ident cap useSamp maxTU instCap instDecl instGL
      ctx T S V).shader = some S := rfl
  have htg : (scnState (M := M) ident cap useSamp maxTU instCap instDecl instGL
      ctx T S V).target = some T := rfl
  have hf1 : (shaderPhase env S (scnState ident cap useSamp maxTU instCap instDecl instGL
      ctx T S V)).updateFlags.matrices = true := by
    simp [shaderPhase, scnState, initState]
  have hany : (targetSizePhase env S T (shaderPhase env S
      (scnState ident cap useSamp maxTU instCap instDecl instGL
        ctx T S V))).1.updateFlags.any = true :=
    UpdateFlags_any_of_matrices _
      (by rw [(targetSizePhase_pres env S T _).2.1]; exact hf1)
  obtain ⟨p1, p2, p3, p4, p5, p6, p7, p8, p9⟩ :=
    preVAO_pres env S T (scnState ident cap useSamp maxTU instCap instDecl instGL ctx T S V)
  have hft : (matrixPhase env.ops (texturePhase (targetSizePhase env S T (shaderPhase env S
      (scnState ident cap useSamp maxTU instCap instDecl instGL
        ctx T S V))).1).1).1.updateFlags.vao = true := by
    rw [p9]; rfl
  have hvbt : (matrixPhase env.ops (texturePhase (targetSizePhase env S T (shaderPhase env S
      (scnState ident cap useSamp maxTU instCap instDecl instGL
        ctx T S V))).1).1).1.vertexBuffer = some V := by
    rw [p3]; rfl
  have hut : (matrixPhase env.ops (texturePhase (targetSizePhase env S T (shaderPhase env S
      (scnState ident cap useSamp maxTU instCap instDecl instGL
        ctx T S V))).1).1).1.useVAO = true := by
    rw [p5]; rfl
  have hnv : (matrixPhase env.ops (texturePhase (targetSizePhase env S T (shaderPhase env S
      (scnState ident cap useSamp maxTU instCap instDecl instGL
        ctx T S V))).1).1).1.nextVAO = 1 := by
    rw [p2]; rfl
  have hlt : lookupKey (mkKey env V (matrixPhase env.ops (texturePhase
        (targetSizePhase env S T (shaderPhase env S
          (scnState ident cap useSamp maxTU instCap instDecl instGL ctx T S V))).1).1).1)
      ((lookupCtx ctx (matrixPhase env.ops (texturePhase (targetSizePhase env S T
        (shaderPhase env S (scnState ident cap useSamp maxTU instCap instDecl instGL
          ctx T S V))).1).1).1.vaos).getD []) = none := by
    rw [p1]; rfl
  have hbt : (buildVAO env V
      (matrixPhase env.ops (texturePhase (targetSizePhase env S T (shaderPhase env S
        (scnState ident cap useSamp maxTU instCap instDecl instGL
          ctx T S V))).1).1).1.instancing
      (matrixPhase env.ops (texturePhase (targetSizePhase env S T (shaderPhase env S
        (scnState ident cap useSamp maxTU instCap instDecl instGL
          ctx T S V))).1).1).1.instanceBufferDecl
      (matrixPhase env.ops (texturePhase (targetSizePhase env S T (shaderPhase env S
        (scnState ident cap useSamp maxTU instCap instDecl instGL
          ctx T S V))).1).1).1.instanceBufferGLId
      (matrixPhase env.ops (texturePhase (targetSizePhase env S T (shaderPhase env S
        (scnState ident cap useSamp maxTU instCap instDecl instGL
          ctx T S V))).1).1).1.indexBuffer).2.2 = false := by
    rw [p6, p7, p8, p4]; exact hbuild
  have hmiss := vaoPhase_missOk env ctx
    (matrixPhase env.ops (texturePhase (targetSizePhase env S T (shaderPhase env S
      (scnState ident cap useSamp maxTU instCap instDecl instGL ctx T S V))).1).1).1
    V hft hvbt hut hlt hbt
  have berr := buildVAO_ok_errors env V
    (matrixPhase env.ops (texturePhase (targetSizePhase env S T (shaderPhase env S
      (scnState ident cap useSamp maxTU instCap instDecl instGL ctx T S V))).1).1).1.instancing
    (matrixPhase env.ops (texturePhase (targetSizePhase env S T (shaderPhase env S
      (scnState ident cap useSamp maxTU instCap instDecl instGL
        ctx T S V))).1).1).1.instanceBufferDecl
    (matrixPhase env.ops (texturePhase (targetSizePhase env S T (shaderPhase env S
      (scnState ident cap useSamp maxTU instCap instDecl instGL
        ctx T S V))).1).1).1.instanceBufferGLId
    (matrixPhase env.ops (texturePhase (targetSizePhase env S T (shaderPhase env S
      (scnState ident cap useSamp maxTU instCap instDecl instGL
        ctx T S V))).1).1).1.indexBuffer hbt
  have bve := buildVAO_eff env V
    (matrixPhase env.ops (texturePhase (targetSizePhase env S T (shaderPhase env S
      (scnState ident cap useSamp maxTU instCap instDecl instGL ctx T S V))).1).1).1.instancing
    (matrixPhase env.ops (texturePhase (targetSizePhase env S T (shaderPhase env S
      (scnState ident cap useSamp maxTU instCap instDecl instGL
        ctx T S V))).1).1).1.instanceBufferDecl
    (matrixPhase env.ops (texturePhase (targetSizePhase env S T (shaderPhase env S
      (scnState ident cap useSamp maxTU instCap instDecl instGL
        ctx T S V))).1).1).1.instanceBufferGLId
    (matrixPhase env.ops (texturePhase (targetSizePhase env S T (shaderPhase env S
      (scnState ident cap useSamp maxTU instCap instDecl instGL
        ctx T S V))).1).1).1.indexBuffer
  obtain ⟨-, t2, -, -, -, -, -, -, -, -, -, -, -, -, -, t16, -, -, t19⟩ :=
    targetSizePhase_pres env S T (shaderPhase env S
      (scnState ident cap useSamp maxTU instCap instDecl instGL ctx T S V))
  obtain ⟨-, -, -, -, -, -, -, -, -, -, -, -, -, -, x15, -, -, x18⟩ :=
    texturePhase_pres (targetSizePhase env S T (shaderPhase env S
      (scnState ident cap useSamp maxTU instCap instDecl instGL ctx T S V))).1
  obtain ⟨-, -, -, -, -, -, -, -, -, -, -, -, -, -, -, m16, m17⟩ :=
    matrixPhase_pres env.ops (texturePhase (targetSizePhase env S T (shaderPhase env S
      (scnState ident cap useSamp maxTU instCap instDecl instGL ctx T S V))).1).1
  rw [ensure_run env _ ctx S T hctx hsh htg hany]
  simp only [hmiss]
  have hrb := textureRebindCmds_eff (M := M)
    ({ (matrixPhase env.ops (texturePhase (targetSizePhase env S T (shaderPhase env S
        (scnState ident cap useSamp maxTU instCap instDecl instGL ctx T S V))).1).1).1 with
        vaos := setCtx ctx (insertKey (mkKey env V (matrixPhase env.ops (texturePhase
          (targetSizePhase env S T (shaderPhase env S (scnState ident cap useSamp maxTU
            instCap instDecl instGL ctx T S V))).1).1).1)
          ((matrixPhase env.ops (texturePhase (targetSizePhase env S T (shaderPhase env S
            (scnState ident cap useSamp maxTU instCap instDecl instGL
              ctx T S V))).1).1).1.nextVAO)
          ((lookupCtx ctx (matrixPhase env.ops (texturePhase (targetSizePhase env S T
            (shaderPhase env S (scnState ident cap useSamp maxTU instCap instDecl instGL
              ctx T S V))).1).1).1.vaos).getD []))
          ((matrixPhase env.ops (texturePhase (targetSizePhase env S T (shaderPhase env S
            (scnState ident cap useSamp maxTU instCap instDecl instGL
              ctx T S V))).1).1).1.vaos)
        currentVAO := (matrixPhase env.ops (texturePhase (targetSizePhase env S T
          (shaderPhase env S (scnState ident cap useSamp maxTU instCap instDecl instGL
            ctx T S V))).1).1).1.nextVAO
        nextVAO := (matrixPhase env.ops (texturePhase (targetSizePhase env S T
          (shaderPhase env S (scnState ident cap useSamp maxTU instCap instDecl instGL
            ctx T S V))).1).1).1.nextVAO + 1
        updateFlags := { (matrixPhase env.ops (texturePhase (targetSizePhase env S T
          (shaderPhase env S (scnState ident cap useSamp maxTU instCap instDecl instGL
            ctx T S V))).1).1).1.updateFlags with vao := false } }.textureUnits)
  simp [hut, hnv, t16, t19, x15, x18, m16, m17, berr, bve.1, bve.2, hrb.1, hrb.2]

end NzRenderer

namespace NzRenderer

variable {M : Type}

/-- C7: after Initialize, SetTarget(T), SetShader(S), SetVertexBuffer(V),
`DrawPrimitives(TriangleStrip, 0, 4)` succeeds with no reported error and
issues exactly one backend draw command; the same sequence without
SetShader fails reconciliation with the `No shader` error before any
backend command is issued, so the trace is empty. -/
theorem draw_scenario (env : Env M) (ident : M) (cap useSamp : Bool)
    (maxTU instCap instDecl instGL ctx T S V : Nat)
    (hTr : env.targetRenderable T = true) (hTa : env.targetActivate T = true)
    (hS : env.shaderValid S = true) (hV : env.vbIsHardware V = true)
    (hbuild : (buildVAO env V false instDecl instGL none).2.2 = false) :
    (drawCount (drawPrimitives env PrimitiveMode.TriangleStrip 0 4
        (setVertexBuffer env (some V) (setShader env (some S) (setTarget env (some T)
          (initState ident cap true useSamp maxTU instCap instDecl instGL
            ctx)).2.1).1).1).2.cmds = 1
    ∧ (drawPrimitives env PrimitiveMode.TriangleStrip 0 4
        (setVertexBuffer env (some V) (setShader env (some S) (setTarget env (some T)
          (initState ident cap true useSamp maxTU instCap instDecl instGL
            ctx)).2.1).1).1).2.errors = [])
    ∧ ((drawPrimitives env PrimitiveMode.TriangleStrip 0 4
        (setVertexBuffer env (some V) (setTarget env (some T)
          (initState ident cap true useSamp maxTU instCap instDecl instGL
            ctx)).2.1).1).2.cmds = []
    ∧ "No shader" ∈ (drawPrimitives env PrimitiveMode.TriangleStrip 0 4
        (setVertexBuffer env (some V) (setTarget env (some T)
          (initState ident cap true useSamp maxTU instCap instDecl instGL
            ctx)).2.1).1).2.errors) := by
  have e1 : setTarget env (some T)
      (initState (M := M) ident cap true useSamp maxTU instCap instDecl instGL ctx)
      = (true, { initState ident cap true useSamp maxTU instCap instDecl instGL ctx with
          target := some T }, effCmds [Cmd.activateTarget T]) := by
    unfold setTarget
    simp [initState, hTr, hTa]
  have e2 : setShader env (some S)
      { initState (M := M) ident cap true useSamp maxTU instCap instDecl instGL ctx with
          target := some T }
      = ({ initState ident cap true useSamp maxTU instCap instDecl instGL ctx with
          shader := some S, target := some T }, Eff.nil) := by
    unfold setShader
    simp [initState, hS]
  have e3 : setVertexBuffer env (some V)
      { initState (M := M) ident cap true useSamp maxTU instCap instDecl instGL ctx with
          shader := some S, target := some T }
      = (scnState ident cap useSamp maxTU instCap instDecl instGL ctx T S V, Eff.nil) := by
    unfold setVertexBuffer scnState
    simp [initState, hV]
  have e2f : setVertexBuffer env (some V)
      { initState (M := M) ident cap true useSamp maxTU instCap instDecl instGL ctx with
          target := some T }
      = ({ initState ident cap true useSamp maxTU instCap instDecl instGL ctx with
          target := some T, vertexBuffer := some V }, Eff.nil) := by
    unfold setVertexBuffer
    simp [initState, hV]
  have hens := scenario_ensure env ident cap useSamp maxTU instCap instDecl instGL
    ctx T S V hbuild
  have hctxs : (scnState (M := M) ident cap useSamp maxTU instCap instDecl instGL
      ctx T S V).currentContext = some ctx := rfl
  have hei : enableInstancing false
      (scnState (M := M) ident cap useSamp maxTU instCap instDecl instGL ctx T S V)
      = scnState ident cap useSamp maxTU instCap instDecl instGL ctx T S V := by
    simp [enableInstancing, scnState, initState]
  have hensF : ensureStateUpdate env
      { initState (M := M) ident cap true useSamp maxTU instCap instDecl instGL ctx with
          target := some T, vertexBuffer := some V }
      = (false, { initState ident cap true useSamp maxTU instCap instDecl instGL ctx with
          target := some T, vertexBuffer := some V }, effErr "No shader") := rfl
  have heiF : enableInstancing false
      { initState (M := M) ident cap true useSamp maxTU instCap instDecl instGL ctx with
          target := some T, vertexBuffer := some V }
      = { initState ident cap true useSamp maxTU instCap instDecl instGL ctx with
          target := some T, vertexBuffer := some V } := by
    simp [enableInstancing, initState]
  refine ⟨?_, ?_⟩
  · simp only [e1, e2, e3]
    unfold drawPrimitives
    simp only [hctxs, hei]
    simp [hens.1, hens.2.1, hens.2.2.1, hens.2.2.2]
  · simp only [e1, e2f]
    unfold drawPrimitives
    simp only [heiF, hensF]
    simp [initState]

end NzRenderer

namespace NzRenderer

/-- Witness for C7 on a fully concrete environment and state. -/
theorem draw_scenario_witness :
    drawCount (drawPrimitives envW PrimitiveMode.TriangleStrip 0 4
      (setVertexBuffer envW (some 3) (setShader envW (some 1) (setTarget envW (some 2)
        (initState (0 : Int) true true true 2 4 50 60 7)).2.1).1).1).2.cmds = 1
    ∧ (drawPrimitives envW PrimitiveMode.TriangleStrip 0 4
      (setVertexBuffer envW (some 3) (setTarget envW (some 2)
        (initState (0 : Int) true true true 2 4 50 60 7)).2.1).1).2.cmds = [] := by
  have h := draw_scenario envW (0 : Int) true true 2 4 50 60 7 2 1 3 rfl rfl rfl rfl
    (by decide)
  exact ⟨h.1.1, h.2.1⟩

end NzRenderer

namespace NzRenderer

/-- Witness for the amended C6 at the concrete failing declaration. -/
theorem ensure_unsupported_poisons_entry_witness :
    lookupKey (mkKey envBad 3 stC6)
      ((lookupCtx 7 (ensureStateUpdate envBad stC6).2.1.vaos).getD []) = some 0
    ∧ (ensureStateUpdate envBad stC6).2.2.errors ≠ [] := by
  have h := ensure_unsupported_poisons_entry envBad stC6 7 1 2 3 rfl rfl rfl rfl rfl rfl rfl
    (by decide)
  exact ⟨h.2.1, h.2.2.2⟩

end NzRenderer
